import Mathlib

/-!
Shallow embedding of the agent dispatch core of `investment_agent_system`:
the request gateway (`src/lambda/invoke_agent/app.py`), the routing adapter
(`src/lambda/agent_router/detailed_investment_router.py`), the subscription
adapter (`src/lambda/subscription_service/subscription_handler.py`) and the
portfolio adapter (`src/lambda/portfolio_service/balance_fetcher.py`).

Python/JSON values are modelled by the inductive `Json` (numbers as `Int`;
every value appearing in the claims is integral).  Fallible Python code is
modelled in `Except String`, the error carrying `str(e)` of the raised
exception.  External effects (`boto3` agent invocation, `urllib3` HTTP
requests, `uuid.uuid4()`) are injected as parameters.
-/

/-- Model of a Python value of JSON shape (`json.loads` output): `None`,
booleans, integers, strings, lists and dicts.  Dicts are association lists
with distinct keys, in insertion order. -/
inductive Json where
  | null : Json
  | bool (b : Bool) : Json
  | num (n : Int) : Json
  | str (s : String) : Json
  | arr (xs : List Json) : Json
  | obj (kvs : List (String × Json)) : Json

/-- First value stored under key `k` (Python dicts have unique keys, so the
first match is the match). -/
def lookupKey (kvs : List (String × Json)) (k : String) : Option Json :=
  match kvs with
  | [] => none
  | (k', v) :: rest => if k' = k then some v else lookupKey rest k

/-- Python type name of a value, as it appears in exception messages. -/
def typeName : Json → String
  | .null => "NoneType"
  | .bool _ => "bool"
  | .num _ => "int"
  | .str _ => "str"
  | .arr _ => "list"
  | .obj _ => "dict"

/-- Message of the `AttributeError` raised by `x.get(...)` when `x` is not a
dict. -/
def attrErrMsg (j : Json) : String :=
  "'" ++ typeName j ++ "' object has no attribute 'get'"

/-- Python truthiness of a value. -/
def pyTruthy : Json → Bool
  | .null => false
  | .bool b => b
  | .num n => n != 0
  | .str s => s != ""
  | .arr xs => !xs.isEmpty
  | .obj kvs => !kvs.isEmpty

mutual
/-- Python `==` on values: `bool` and `int` compare by numeric value, values
of unrelated types compare unequal, containers compare elementwise (dicts
here compare in insertion order: every dict comparison the code performs is
between dicts built in the same order). -/
def pyEq : Json → Json → Bool
  | .null, .null => true
  | .bool x, .bool y => x == y
  | .bool x, .num n => (if x then (1 : Int) else 0) == n
  | .num n, .bool x => n == (if x then (1 : Int) else 0)
  | .num m, .num n => m == n
  | .str s, .str t => s == t
  | .arr xs, .arr ys => pyEqList xs ys
  | .obj kvs, .obj lvs => pyEqKvs kvs lvs
  | _, _ => false

/-- Elementwise `pyEq` on lists. -/
def pyEqList : List Json → List Json → Bool
  | [], [] => true
  | x :: xs, y :: ys => pyEq x y && pyEqList xs ys
  | _, _ => false

/-- Entrywise `pyEq` on dict entries. -/
def pyEqKvs : List (String × Json) → List (String × Json) → Bool
  | [], [] => true
  | (k, v) :: kvs, (l, w) :: lvs => k == l && pyEq v w && pyEqKvs kvs lvs
  | _, _ => false
end

mutual
/-- Python `str()` of a value (`None`, `True`, numbers, the string itself;
containers render via `repr`). -/
def pyStr : Json → String
  | .null => "None"
  | .bool b => if b then "True" else "False"
  | .num n => toString n
  | .str s => s
  | .arr xs => "[" ++ pyStrList xs ++ "]"
  | .obj kvs => "\x7b" ++ pyStrObj kvs ++ "\x7d"

/-- Comma-separated `repr`s of list elements. -/
def pyStrList : List Json → String
  | [] => ""
  | [x] => pyReprAtom x
  | x :: xs => pyReprAtom x ++ ", " ++ pyStrList xs

/-- Comma-separated `repr`s of dict entries. -/
def pyStrObj : List (String × Json) → String
  | [] => ""
  | [(k, v)] => "'" ++ k ++ "': " ++ pyReprAtom v
  | (k, v) :: kvs => "'" ++ k ++ "': " ++ pyReprAtom v ++ ", " ++ pyStrObj kvs

/-- Python `repr()` of a value (strings quoted, the rest as `str()`). -/
def pyReprAtom : Json → String
  | .str s => "'" ++ s ++ "'"
  | .null => "None"
  | .bool b => if b then "True" else "False"
  | .num n => toString n
  | .arr xs => "[" ++ pyStrList xs ++ "]"
  | .obj kvs => "\x7b" ++ pyStrObj kvs ++ "\x7d"
end

/-- Python `len()`: defined on strings, lists and dicts, a `TypeError`
otherwise. -/
def pyLen : Json → Except String Nat
  | .str s => .ok s.length
  | .arr xs => .ok xs.length
  | .obj kvs => .ok kvs.length
  | j => .error ("object of type '" ++ typeName j ++ "' has no len()")

/-- Python `x.get(k, d)`: the stored value, the default when the key is
absent, an `AttributeError` when `x` is not a dict. -/
def pyDictGet (j : Json) (k : String) (d : Json) : Except String Json :=
  match j with
  | .obj kvs => .ok ((lookupKey kvs k).getD d)
  | _ => .error (attrErrMsg j)

/-- Total variant of `.get(k, d)` for call sites whose receiver is a dict by
construction. -/
def objGetD (j : Json) (k : String) (d : Json) : Json :=
  match j with
  | .obj kvs => (lookupKey kvs k).getD d
  | _ => d

/-- Per each adapter's lines near its top: `event = event[0] if event else
\x7b\x7d` when the event arrives as a list. -/
def unwrapEvent : Json → Json
  | .arr [] => .obj []
  | .arr (x :: _) => x
  | e => e

/-! Number formatting.  The code formats currency amounts with the Python
format spec `,.2f` (thousands separators, two decimals) and percentages with
`+.2f` (forced sign, two decimals).  Numbers are modelled as integers, so
two decimals render as `.00`. -/

/-- Insert a thousands separator after every third digit of a reversed digit
list. -/
def groupRev : List Char → List Char
  | a :: b :: c :: d :: rest => a :: b :: c :: ',' :: groupRev (d :: rest)
  | l => l

/-- Decimal digits of `n` with thousands separators, e.g. `105000 ↦
"105,000"`. -/
def groupDigits (n : Nat) : String :=
  String.mk (groupRev (toString n).data.reverse).reverse

/-- Python `"\x7b:,.2f\x7d".format(x)` on a value: defined on numbers (and
bools, which format as 0/1), a `ValueError`/`TypeError` on anything else. -/
def pyFmtMoney : Json → Except String String
  | .num n =>
      .ok ((if n < 0 then "-" else "") ++ groupDigits n.natAbs ++ ".00")
  | .bool b => .ok (if b then "1.00" else "0.00")
  | .str _ => .error "Unknown format code 'f' for object of type 'str'"
  | j => .error ("unsupported format string passed to " ++ typeName j ++ ".__format__")

/-- Python `"\x7b:+.2f\x7d".format(x)`: forced sign, no thousands
separators. -/
def pyFmtSignedPct : Json → Except String String
  | .num n =>
      .ok ((if n < 0 then "-" else "+") ++ toString n.natAbs ++ ".00")
  | .bool b => .ok (if b then "+1.00" else "+0.00")
  | .str _ => .error "Unknown format code 'f' for object of type 'str'"
  | j => .error ("unsupported format string passed to " ++ typeName j ++ ".__format__")

mutual
/-- Model of Python `json.dumps` with default separators. -/
def jsonDumps : Json → String
  | .null => "null"
  | .bool b => if b then "true" else "false"
  | .num n => toString n
  | .str s => "\"" ++ s ++ "\""
  | .arr xs => "[" ++ jsonDumpsList xs ++ "]"
  | .obj kvs => "\x7b" ++ jsonDumpsKvs kvs ++ "\x7d"

/-- Comma-separated dumps of list elements. -/
def jsonDumpsList : List Json → String
  | [] => ""
  | [x] => jsonDumps x
  | x :: xs => jsonDumps x ++ ", " ++ jsonDumpsList xs

/-- Comma-separated dumps of dict entries. -/
def jsonDumpsKvs : List (String × Json) → String
  | [] => ""
  | [(k, v)] => "\"" ++ k ++ "\": " ++ jsonDumps v
  | (k, v) :: kvs => "\"" ++ k ++ "\": " ++ jsonDumps v ++ ", " ++ jsonDumpsKvs kvs
end

/-! The function-call reply shape shared by all three adapters. -/

/-- The reply dict every adapter returns: `messageVersion` 1.0 wrapping
`actionGroup`, `function` and a TEXT response body. -/
def mkFnResult (ag fn : Json) (body : String) : Json :=
  .obj [("messageVersion", .str "1.0"),
        ("response", .obj
          [("actionGroup", ag),
           ("function", fn),
           ("functionResponse", .obj
             [("responseBody", .obj
               [("TEXT", .obj [("body", .str body)])])])])]

/-- A value of the reply shape above, whatever its fields. -/
def IsFnCallResult (j : Json) : Prop :=
  ∃ ag fn body, j = mkFnResult ag fn body

/-- Each adapter's `except` block reads `event.get("actionGroup", "") if
isinstance(event, dict) else ""` on the (already unwrapped) event. -/
def agAtFailure (event : Json) : Json :=
  match event with
  | .obj kvs => (lookupKey kvs "actionGroup").getD (.str "")
  | _ => .str ""

/-! Parameter normalization.  The router and the balance fetcher coerce only
the list-of-name/value shape (any other shape leaves the mapping empty); the
subscription handler additionally accepts an already-flat dict.  Parameter
dicts are association lists keyed by arbitrary values (`param["name"]`),
updated with Python dict semantics; the dict assignment
`parameters[param["name"]] = param["value"]` raises a `TypeError` when the
name value is unhashable (a list or a dict). -/

/-- Whether a value is hashable, so Python can use it as a dict key. -/
def pyHashable : Json → Bool
  | .arr _ => false
  | .obj _ => false
  | _ => true

/-- Message of the `TypeError` raised when an unhashable value is used as a
dict key. -/
def unhashableMsg (j : Json) : String :=
  "unhashable type: '" ++ typeName j ++ "'"

/-- Python `d[k] = v` for a hashable key `k`: overwrite in place if some
key compares `pyEq` to `k`, else append (`paramStep` checks hashability
first, which is where Python raises). -/
def pyDictInsert (d : List (Json × Json)) (k v : Json) : List (Json × Json) :=
  if d.any (fun kv => pyEq kv.1 k) then
    d.map (fun kv => if pyEq kv.1 k then (kv.1, v) else kv)
  else
    d ++ [(k, v)]

/-- One iteration of the `for param in parameters_list` loop shared by all
three handlers: keep dict elements carrying both a `name` and a `value`
key; the assignment raises a `TypeError` on an unhashable name value. -/
def paramStep (d : List (Json × Json)) (p : Json) : Except String (List (Json × Json)) :=
  match p with
  | .obj kvs =>
      match lookupKey kvs "name", lookupKey kvs "value" with
      | some n, some v =>
          if pyHashable n then .ok (pyDictInsert d n v) else .error (unhashableMsg n)
      | _, _ => .ok d
  | _ => .ok d

/-- The whole `for param in parameters_list` loop. -/
def paramsFromPairList (ps : List Json) : Except String (List (Json × Json)) :=
  ps.foldlM paramStep []

/-- Parameter normalization of the router and of the balance fetcher: only
`isinstance(parameters_list, list)` is handled; any other shape leaves the
mapping empty. -/
def normalizeParamsListOnly : Json → Except String (List (Json × Json))
  | .arr ps => paramsFromPairList ps
  | _ => .ok []

/-- Parameter normalization of the subscription handler: the list shape as
above, and `elif isinstance(parameters_list, dict): parameters =
parameters_list` (a plain assignment, which cannot raise). -/
def normalizeParamsSub : Json → Except String (List (Json × Json))
  | .arr ps => paramsFromPairList ps
  | .obj kvs => .ok (kvs.map (fun kv => (Json.str kv.1, kv.2)))
  | _ => .ok []

/-- Python `parameters.get(k, d)` on a normalized parameter mapping. -/
def paramsGetD (ps : List (Json × Json)) (k : String) (d : Json) : Json :=
  match ps.find? (fun kv => pyEq kv.1 (.str k)) with
  | some kv => kv.2
  | none => d

/-- The list-of-name/value encoding of a flat mapping, for relating the two
event parameter shapes. -/
def encodeParams (kvs : List (String × Json)) : Json :=
  .arr (kvs.map (fun kv => .obj [("name", .str kv.1), ("value", kv.2)]))

/-! Request Gateway, `src/lambda/invoke_agent/app.py` `handler`.  The
`json.loads` outcome of the request body is injected as `parsed` (`.error`
for a `json.JSONDecodeError`), the `str(uuid.uuid4())` the handler computes
as `genUuid`, and `bedrock_agent.invoke_agent` plus the chunk
reassembly loop as `invokeAgent sessionId inputText`, returning the decoded
chunks in delivery order or the message of a raised exception. -/

/-- Whether `"PLACEHOLDER" in s`, per the gateway's configuration check. -/
def strContainsSub (needle : List Char) : List Char → Bool
  | [] => needle.isEmpty
  | c :: rest => needle.isPrefixOf (c :: rest) || strContainsSub needle rest

/-- Python `"PLACEHOLDER" in aliasId`. -/
def containsPlaceholder (aliasId : String) : Bool :=
  strContainsSub "PLACEHOLDER".data aliasId.data

/-- An HTTP reply of the gateway: status code plus the dict passed to
`json.dumps` for the body. -/
structure HttpOut where
  statusCode : Int
  body : Json

/-- What the gateway decides before any external call: reply early, or
invoke the orchestrator agent with a session id and a prompt. -/
inductive GwStep where
  | early (out : HttpOut)
  | invokeAgent (sessionId : Json) (prompt : Json)

/-- The gateway up to (not including) the orchestrator invocation: body
parse errors map to 400, a missing/falsy `query` to 400 with the exact
message, a placeholder alias id to 500, a non-dict body to the
`AttributeError` branch of the catch-all (500). -/
def gatewayPlan (parsed : Except Unit Json) (genUuid : String) (aliasId : String) : GwStep :=
  match parsed with
  | .error _ => .early ⟨400, .obj [("error", .str "Invalid JSON in request body")]⟩
  | .ok body =>
    match body with
    | .obj kvs =>
      let prompt := (lookupKey kvs "query").getD .null
      let sessionId := (lookupKey kvs "session_id").getD (.str genUuid)
      if !pyTruthy prompt then
        .early ⟨400, .obj [("error", .str "Missing 'query' in request body")]⟩
      else if containsPlaceholder aliasId then
        .early ⟨500, .obj [("error", .str "Server is not configured. Agent Alias ID is a placeholder.")]⟩
      else .invokeAgent sessionId prompt
    | other =>
      .early ⟨500, .obj [("error", .str ("An internal error occurred: " ++ attrErrMsg other))]⟩

/-- The whole gateway handler: run the plan, then the orchestrator
invocation; a downstream exception maps to 500 with its message. -/
def gatewayHandler (parsed : Except Unit Json) (genUuid : String) (aliasId : String)
    (invokeAgent : Json → Json → Except String (List String)) : HttpOut :=
  match gatewayPlan parsed genUuid aliasId with
  | .early out => out
  | .invokeAgent sid prompt =>
    match invokeAgent sid prompt with
    | .ok chunks => ⟨200, .obj [("response", .str (String.join chunks)), ("session_id", sid)]⟩
    | .error m => ⟨500, .obj [("error", .str ("An internal error occurred: " ++ m))]⟩

/-! Routing adapter, `src/lambda/agent_router/detailed_investment_router.py`
`handler`.  `genUuid` injects the `str(uuid.uuid4())` of line 75, and
`invokeAgent sessionId query` the `bedrock_agent.invoke_agent` call plus
chunk reassembly.  Exceptions carry, besides `str(e)`, the value that
`function_name if 'function_name' in locals() else ""` yields inside the
`except` block. -/

/-- The function name the router extracts: `.get("function", "")` after the
list unwrap, replaced by the registered name when falsy and the event
carries `inputText` (the direct-invocation fallback); `AttributeError` on a
non-dict event. -/
def routerExtractedFn (event0 : Json) : Except String Json :=
  match unwrapEvent event0 with
  | .obj kvs =>
      let fn := (lookupKey kvs "function").getD (.str "")
      if !pyTruthy fn && (lookupKey kvs "inputText").isSome then
        .ok (.str "invoke_detailed_investment_agent")
      else .ok fn
  | other => .error (attrErrMsg other)

/-- What the router decides before any external call: reply early, or invoke
the detailed investment agent with a query. -/
inductive RouterStep where
  | early (result : Json)
  | callAgent (actionGroup : Json) (query : Json)

/-- The router up to (not including) the agent invocation: extraction,
parameter normalization (which runs before anything else and can raise,
with `function_name` already in the locals), the `inputText` fallback, the
unknown-function and missing-query early replies. -/
def routerPlan (event0 : Json) : Except (String × Json) RouterStep :=
  match unwrapEvent event0 with
  | .obj kvs =>
    let fn0 := (lookupKey kvs "function").getD (.str "")
    let plist := (lookupKey kvs "parameters").getD (.arr [])
    let ag := (lookupKey kvs "actionGroup").getD (.str "")
    match normalizeParamsListOnly plist with
    | .error m => .error (m, fn0)
    | .ok params0 =>
      let useFallback := !pyTruthy fn0 && (lookupKey kvs "inputText").isSome
      let fn := if useFallback then Json.str "invoke_detailed_investment_agent" else fn0
      let params :=
        if useFallback then [((Json.str "query"), (lookupKey kvs "inputText").getD (.str ""))]
        else params0
      if !pyEq fn (.str "invoke_detailed_investment_agent") then
        .ok (.early (mkFnResult ag fn ("Error: Unknown function: " ++ pyStr fn)))
      else
        let query := paramsGetD params "query" (.str "")
        if !pyTruthy query then
          .ok (.early (mkFnResult ag fn "Error: Missing 'query' parameter"))
        else
          .ok (.callAgent ag query)
  | other => .error (attrErrMsg other, .str "")

/-- The router's `try` body: the plan, then the agent invocation on the
fresh `genUuid` session. -/
def routerBody (event0 : Json) (genUuid : String)
    (invokeAgent : String → Json → Except String (List String)) :
    Except (String × Json) Json :=
  match routerPlan event0 with
  | .error e => .error e
  | .ok (.early r) => .ok r
  | .ok (.callAgent ag query) =>
      match invokeAgent genUuid query with
      | .ok chunks =>
          .ok (mkFnResult ag (.str "invoke_detailed_investment_agent") (String.join chunks))
      | .error m => .error (m, .str "invoke_detailed_investment_agent")

/-- The whole router handler: the `try` body, with the `except` block
wrapping any exception into a function-call result. -/
def routerHandler (event0 : Json) (genUuid : String)
    (invokeAgent : String → Json → Except String (List String)) : Json :=
  match routerBody event0 genUuid invokeAgent with
  | .ok r => r
  | .error (m, fn) =>
      mkFnResult (agAtFailure (unwrapEvent event0)) fn
        ("Error invoking detailed investment agent: " ++ m)

/-! Subscription adapter,
`src/lambda/subscription_service/subscription_handler.py`.  A `urllib3`
response is injected as an `HttpResp` (its status, the `json.loads` outcome
of its decoded data, and the decoded text itself for error details); a
raised exception as a `NetErr`, distinguishing `urllib3.exceptions.HTTPError`
from any other exception the call raises, as the two `except` clauses do. -/

/-- An upstream HTTP response as the handlers consume it. -/
structure HttpResp where
  status : Int
  parsed : Except String Json
  raw : String

/-- An exception raised by an `http.request` call. -/
inductive NetErr where
  | httpError (msg : String)
  | otherError (msg : String)

/-- A `\x7b'statusCode': ..., 'body': json.dumps(...)\x7d` value returned by
`check_subscription`/`subscribe_to_service`; `body` is kept as the dict
passed to `json.dumps` (the handler immediately `json.loads` it back). -/
structure SvcResult where
  statusCode : Int
  body : Json

/-- Lines 141-151 of `check_subscription`: extract the permitted-agents
collection (from `data.permitted_agents` if the body is a dict, the body
itself if it is a list, `[]` otherwise) and compute `len(...) > 0`; a
non-dict `data` field or a `len()`-less collection raises. -/
def extractPermitted (j : Json) : Except String (Json × Bool) := do
  let permitted ←
    match j with
    | .obj kvs =>
        match (lookupKey kvs "data").getD (.obj []) with
        | .obj dkvs => Except.ok ((lookupKey dkvs "permitted_agents").getD (.arr []))
        | other => Except.error (attrErrMsg other)
    | .arr xs => Except.ok (.arr xs)
    | _ => Except.ok (.arr [])
  let n ← pyLen permitted
  return (permitted, decide (0 < n))

/-- The permissions endpoint for a user. -/
def checkUrl (userId : Json) : String :=
  "https://kpfnbcvnfb.execute-api.us-east-1.amazonaws.com/dev/permissions/" ++ pyStr userId

/-- `check_subscription(parameters)`: defaulted user id, one GET, and the
status/JSON/extraction error ladder; never raises (its own
`try`/`except` ladder absorbs every exception). -/
def checkSubscription (params : List (Json × Json))
    (netGet : String → Except NetErr HttpResp) : SvcResult :=
  let userId := paramsGetD params "user_id" (.str "quang")
  match netGet (checkUrl userId) with
  | .error (.httpError m) =>
      ⟨500, .obj [("error", .str "Failed to check subscription status"), ("details", .str m)]⟩
  | .error (.otherError m) =>
      ⟨500, .obj [("error", .str "Internal error while checking subscription"),
                  ("details", .str m)]⟩
  | .ok resp =>
    if resp.status != 200 then
      ⟨500, .obj [("error", .str ("API request failed with status: " ++ toString resp.status)),
                  ("details", .str (if resp.raw != "" then resp.raw else "No response data"))]⟩
    else
      match resp.parsed with
      | .error m =>
          ⟨500, .obj [("error", .str "Invalid JSON response from API"), ("details", .str m)]⟩
      | .ok subscriptionData =>
        match extractPermitted subscriptionData with
        | .error m =>
            ⟨500, .obj [("error", .str "Internal error while checking subscription"),
                        ("details", .str m)]⟩
        | .ok (permitted, hasSub) =>
            ⟨200, .obj [("has_subscription", .bool hasSub),
                        ("permitted_agents", permitted),
                        ("user_id", userId),
                        ("raw_response", subscriptionData)]⟩

/-- The grant endpoint for a user. -/
def subscribeUrl (userId : Json) : String :=
  "https://kpfnbcvnfb.execute-api.us-east-1.amazonaws.com/dev/permissions/" ++ pyStr userId
    ++ "/agents"

/-- `subscribe_to_service(parameters)`: defaulted user id and agent name,
one POST of `\x7b"agent_name": ...\x7d`, and the same error ladder; success is
determined solely by HTTP 200. -/
def subscribeToService (params : List (Json × Json))
    (netPost : String → Json → Except NetErr HttpResp) : SvcResult :=
  let userId := paramsGetD params "user_id" (.str "quang")
  let agentName := paramsGetD params "agent_name" (.str "detailed-investment-agent")
  match netPost (subscribeUrl userId) (.obj [("agent_name", agentName)]) with
  | .error (.httpError m) =>
      ⟨500, .obj [("error", .str "Failed to subscribe to service"), ("details", .str m)]⟩
  | .error (.otherError m) =>
      ⟨500, .obj [("error", .str "Internal error while subscribing"), ("details", .str m)]⟩
  | .ok resp =>
    if resp.status != 200 then
      ⟨500, .obj [("error", .str ("API request failed with status: " ++ toString resp.status)),
                  ("details", .str (if resp.raw != "" then resp.raw else "No response data"))]⟩
    else
      match resp.parsed with
      | .error m =>
          ⟨500, .obj [("error", .str "Invalid JSON response from API"), ("details", .str m)]⟩
      | .ok subscriptionResult =>
          ⟨200, .obj [("success", .bool true),
                      ("message", .str ("Successfully subscribed " ++ pyStr userId ++ " to "
                        ++ pyStr agentName)),
                      ("subscription_result", subscriptionResult)]⟩

/-- Lines 62-94 of the subscription handler: turn a service result into the
adapter's response text (dump the check result, a fixed confirmation
sentence for a successful grant, error text otherwise) and wrap it. -/
def subWrapResult (ag fn : Json) (result : SvcResult) (isCheck : Bool) : Json :=
  if result.statusCode == 200 then
    let bodyData := result.body
    let responseText :=
      if isCheck then jsonDumps bodyData
      else if pyTruthy (objGetD bodyData "success" .null) then
        "Great! You have successfully subscribed to the Vanguard Investment Advice service. You now have access to detailed investment advice and personalized recommendations."
      else
        "There was an issue with your subscription: "
          ++ pyStr (objGetD bodyData "message" (.str "Unknown error"))
    mkFnResult ag fn responseText
  else
    mkFnResult ag fn ("Error: " ++ pyStr (objGetD result.body "error" (.str "Unknown error")))

/-- The subscription handler's `try` body: unwrap, extraction,
normalization accepting both parameter shapes (running before the dispatch
and able to raise, with `function_name` already in the locals), dispatch on
the function name, result wrapping. -/
def subBody (event0 : Json) (netGet : String → Except NetErr HttpResp)
    (netPost : String → Json → Except NetErr HttpResp) : Except (String × Json) Json :=
  match unwrapEvent event0 with
  | .obj kvs =>
    let fn := (lookupKey kvs "function").getD (.str "")
    let plist := (lookupKey kvs "parameters").getD (.arr [])
    let ag := (lookupKey kvs "actionGroup").getD (.str "")
    match normalizeParamsSub plist with
    | .error m => .error (m, fn)
    | .ok params =>
      if pyEq fn (.str "check_subscription") then
        .ok (subWrapResult ag fn (checkSubscription params netGet) true)
      else if pyEq fn (.str "subscribe_to_service") then
        .ok (subWrapResult ag fn (subscribeToService params netPost) false)
      else
        .ok (mkFnResult ag fn ("Error: Unknown function: " ++ pyStr fn))
  | other => .error (attrErrMsg other, .str "")

/-- The whole subscription handler: the `try` body, with the `except` block
wrapping any exception into a function-call result. -/
def subHandler (event0 : Json) (netGet : String → Except NetErr HttpResp)
    (netPost : String → Json → Except NetErr HttpResp) : Json :=
  match subBody event0 netGet netPost with
  | .ok r => r
  | .error (m, fn) =>
      mkFnResult (agAtFailure (unwrapEvent event0)) fn ("Error in subscription handler: " ++ m)

/-! Portfolio adapter, `src/lambda/portfolio_service/balance_fetcher.py`.
The repository file stores its bullet and lightbulb glyphs as mojibake
(bytes `c3 a2 e2 82 ac c2 a2` and `c3 b0 c5 b8 e2 80 99 c2 a1`); the
embedding reproduces those exact characters via unicode escapes. -/

/-- The bullet glyph as stored in the source file. -/
def bulletGlyph : String := "â€¢"

/-- The lightbulb glyph as stored in the source file. -/
def bulbGlyph : String := "ðŸ’¡"

/-- `fetch_portfolio_balance()`: one GET; `None` on a non-200 status, an
unparseable body or any raised exception. -/
def fetchPortfolioBalance (net : Except NetErr HttpResp) : Option Json :=
  match net with
  | .error _ => none
  | .ok resp =>
      if resp.status == 200 then
        match resp.parsed with
        | .ok j => some j
        | .error _ => none
      else none

/-- Numeric value of a sort key when Python compares it as a number
(`bool` counts as 0/1). -/
def keyNumVal : Json → Option Int
  | .num n => some n
  | .bool b => some (if b then 1 else 0)
  | _ => none

/-- Python `<=` between two sort keys: defined between numbers/bools and
between strings, `none` (a `TypeError`) between unrelated types. -/
def pyKeyLe (a b : Json) : Option Bool :=
  match keyNumVal a, keyNumVal b with
  | some x, some y => some (decide (x ≤ y))
  | _, _ =>
    match a, b with
    | .str s, .str t => some (decide (s ≤ t))
    | _, _ => none

/-- Whether every pair of keys is comparable, so the sort completes without
a `TypeError`. -/
def pairsComparable (ks : List Json) : Bool :=
  ks.all (fun a => ks.all (fun b => (pyKeyLe a b).isSome))

/-- Stable descending insertion: place `x` in front of the first element
whose key is `≤` the key of `x` (so `x`, which originated earlier, precedes
every element it ties with). -/
def insDesc (le : α → α → Bool) (x : α) : List α → List α
  | [] => [x]
  | y :: ys => if le y x then x :: y :: ys else y :: insDesc le x ys

/-- Stable descending sort, the model of Python's stable
`sorted(..., reverse=True)`: any two stable sorts under the same total key
preorder agree. -/
def sortDesc (le : α → α → Bool) : List α → List α
  | [] => []
  | x :: xs => insDesc le x (sortDesc le xs)

/-- Key order on (key, element) pairs. -/
def keyedLe (a b : Json × Json) : Bool :=
  (pyKeyLe a.1 b.1).getD false

/-- The sort keys: `x.get('totalValue', 0)` for each element, raising on a
non-dict element. -/
def posKeyed (xs : List Json) : Except String (List (Json × Json)) :=
  xs.mapM (fun x => (pyDictGet x "totalValue" (.num 0)).map (fun k => (k, x)))

/-- `sorted(positions, key=lambda x: x.get('totalValue', 0), reverse=True)`:
iterating a non-list raises (a string or dict yields elements without
`.get`, scalars are not iterable), as does an incomparable pair of keys. -/
def pySortedByTotalValueDesc (positions : Json) : Except String (List Json) :=
  match positions with
  | .arr xs => do
      let keyed ← posKeyed xs
      if pairsComparable (keyed.map Prod.fst) then
        .ok ((sortDesc keyedLe keyed).map Prod.snd)
      else .error "'<' not supported between instances"
  | .str s => if s = "" then .ok [] else .error (attrErrMsg (.str s))
  | .obj kvs => if kvs.isEmpty then .ok [] else .error (attrErrMsg (.str ""))
  | other => .error ("'" ++ typeName other ++ "' object is not iterable")

/-- One Top Holdings line:
`f"\x7bi+1\x7d. \x7bsymbol\x7d - $\x7btotal_value:,.2f\x7d (\x7bgain_loss_percent:+.2f\x7d%)"`. -/
def holdingLine (rank : Nat) (position : Json) : Except String String := do
  let symbol ← pyDictGet position "symbol" (.str "N/A")
  let _name ← pyDictGet position "name" (.str "N/A")
  let totalValue ← pyDictGet position "totalValue" (.num 0)
  let gainLossPercent ← pyDictGet position "gainLossPercent" (.num 0)
  let money ← pyFmtMoney totalValue
  let pct ← pyFmtSignedPct gainLossPercent
  return (toString rank ++ ". " ++ pyStr symbol ++ " - $" ++ money ++ " (" ++ pct ++ "%)")

/-- The `for i, position in enumerate(sorted_positions[:3])` loop. -/
def holdingLines (i : Nat) : List Json → Except String (List String)
  | [] => .ok []
  | p :: ps => do
      let line ← holdingLine (i + 1) p
      let rest ← holdingLines (i + 1) ps
      return line :: rest

/-- Lines 180-187 of `generate_balance_response`: sort, keep the top 3,
format each. -/
def topHoldingsLines (positions : Json) : Except String (List String) := do
  let sorted ← pySortedByTotalValueDesc positions
  holdingLines 0 (sorted.take 3)

/-- Python `x > bound` for an `int` bound: numbers and bools compare, other
types raise. -/
def pyGtInt (j : Json) (bound : Int) : Except String Bool :=
  match j with
  | .num n => .ok (decide (bound < n))
  | .bool b => .ok (decide (bound < (if b then (1 : Int) else 0)))
  | other =>
      .error ("'>' not supported between instances of '" ++ typeName other ++ "' and 'int'")

/-- The `try` body of `generate_balance_response`: field extraction,
formatted summary lines, the cash-opportunity paragraph, the Top Holdings
section, joined with newlines. -/
def genBody (portfolioData : Json) : Except String String := do
  let portfolio ← pyDictGet portfolioData "portfolio" (.obj [])
  let totalValue ← pyDictGet portfolio "totalValue" (.num 0)
  let cashBalance ← pyDictGet portfolio "cashBalance" (.num 0)
  let currency ← pyDictGet portfolio "currency" (.str "USD")
  let performance ← pyDictGet portfolio "performance" (.obj [])
  let twelveMonths ← pyDictGet performance "twelveMonths" (.obj [])
  let twelveMonthReturn ← pyDictGet twelveMonths "percentReturn" (.num 0)
  let summary ← pyDictGet portfolio "summary" (.obj [])
  let dayChange ← pyDictGet summary "dayChange" (.num 0)
  let dayChangePercent ← pyDictGet summary "dayChangePercent" (.num 0)
  let totalValueS ← pyFmtMoney totalValue
  let cashBalanceS ← pyFmtMoney cashBalance
  let dayChangeS ← pyFmtMoney dayChange
  let dayChangePctS ← pyFmtSignedPct dayChangePercent
  let twelveS ← pyFmtSignedPct twelveMonthReturn
  let headerParts : List String :=
    ["Here's your current portfolio summary:",
     bulletGlyph ++ " Total Portfolio Value: $" ++ totalValueS ++ " " ++ pyStr currency,
     bulletGlyph ++ " Available Cash Balance: $" ++ cashBalanceS ++ " " ++ pyStr currency,
     bulletGlyph ++ " Today's Change: $" ++ dayChangeS ++ " (" ++ dayChangePctS ++ "%)",
     bulletGlyph ++ " 12-Month Return: " ++ twelveS ++ "%"]
  let cashPositive ← pyGtInt cashBalance 0
  let cashParts : List String ←
    if cashPositive then do
      let cashLarge ← pyGtInt cashBalance 1000
      let suggestion : List String :=
        if cashLarge then
          ["This represents a good opportunity to deploy this capital into your investment strategy. ",
           "Consider:",
           bulletGlyph ++ " Dollar-cost averaging into your existing holdings",
           bulletGlyph ++ " Rebalancing your portfolio to maintain your target allocation",
           bulletGlyph ++ " Investing in diversified index funds if you're looking for broad market exposure"]
        else
          ["While this amount is relatively small, every dollar invested has the potential to grow over time. ",
           "Consider adding it to your regular investment positions."]
      pure (["",
             bulbGlyph ++ " **Investment Opportunity:**",
             "I notice you have $" ++ cashBalanceS ++ " in cash sitting in your account. "]
        ++ suggestion
        ++ ["",
            "Remember: Time in the market tends to be more beneficial than timing the market. ",
            "However, please consider your own financial goals and risk tolerance before making any investment decisions."])
    else pure []
  let positions ← pyDictGet portfolio "positions" (.arr [])
  let holdingParts : List String ←
    if pyTruthy positions then do
      let lines ← topHoldingsLines positions
      pure (["", "**Top Holdings:**"] ++ lines)
    else pure []
  return String.intercalate "\n" (headerParts ++ cashParts ++ holdingParts)

/-- The `except` fallback of `generate_balance_response`: re-reads
`portfolio_data.get('portfolio', \x7b\x7d).get('totalValue', 0)` and formats
it, so it can itself raise. -/
def balanceFallback (portfolioData : Json) : Except String String := do
  let portfolio ← pyDictGet portfolioData "portfolio" (.obj [])
  let totalValue ← pyDictGet portfolio "totalValue" (.num 0)
  let s ← pyFmtMoney totalValue
  return ("I was able to fetch your portfolio data, but encountered an issue formatting the response. Your total portfolio value is $" ++ s ++ ".")

/-- `generate_balance_response(portfolio_data)`: the `try` body, or the
fallback one-liner when it raises; an exception of the fallback itself
propagates. -/
def generateBalanceResponse (portfolioData : Json) : Except String String :=
  match genBody portfolioData with
  | .ok s => .ok s
  | .error _ => balanceFallback portfolioData

/-- The balance handler's `try` body.  The normalization loop of lines
30-34 runs before the function-name check; its result is never used
afterwards, but it can raise (an unhashable name value), observable through
the `except` wrap. -/
def balBody (event0 : Json) (net : Except NetErr HttpResp) : Except (String × Json) Json :=
  match unwrapEvent event0 with
  | .obj kvs =>
    let fn := (lookupKey kvs "function").getD (.str "")
    let plist := (lookupKey kvs "parameters").getD (.arr [])
    let ag := (lookupKey kvs "actionGroup").getD (.str "")
    match normalizeParamsListOnly plist with
    | .error m => .error (m, fn)
    | .ok _params =>
      if !pyEq fn (.str "get_portfolio_balance") then
        .ok (mkFnResult ag fn ("Error: Unknown function: " ++ pyStr fn))
      else
        match fetchPortfolioBalance net with
        | none =>
            .ok (mkFnResult ag fn
              "Sorry, I'm unable to fetch your portfolio balance at the moment. Please try again later.")
        | some pd =>
            match generateBalanceResponse pd with
            | .ok text => .ok (mkFnResult ag fn text)
            | .error m => .error (m, fn)
  | other => .error (attrErrMsg other, .str "")

/-- The whole balance handler: the `try` body, with the `except` block
wrapping any exception into a function-call result. -/
def balHandler (event0 : Json) (net : Except NetErr HttpResp) : Json :=
  match balBody event0 net with
  | .ok r => r
  | .error (m, fn) =>
      mkFnResult (agAtFailure (unwrapEvent event0)) fn
        ("Error fetching portfolio balance: " ++ m)

/-! Remaining accessor definitions used by the statements below. -/

/-- The `session_id` field of a gateway reply body. -/
def sessionIdOf (out : HttpOut) : Json :=
  objGetD out.body "session_id" .null

/-- The `response` field of a gateway reply body. -/
def responseOf (out : HttpOut) : Json :=
  objGetD out.body "response" .null

/-- The sort key of a position as `generate_balance_response` reads it:
`x.get('totalValue', 0)` on a dict. -/
def posTotalValue (x : Json) : Json :=
  objGetD x "totalValue" (.num 0)

/-- A well-formed position: a dict whose `totalValue` (after the `.get`
default) is a number. -/
def WFPosition (x : Json) : Prop :=
  (∃ kvs, x = Json.obj kvs) ∧ ∃ n, posTotalValue x = .num n

/-- Whether a value is the list parameter shape. -/
def isListShape : Json → Bool
  | .arr _ => true
  | _ => false

/-- Whether a value is the flat-mapping parameter shape. -/
def isDictShape : Json → Bool
  | .obj _ => true
  | _ => false

/-- An injected invocation that echoes the session id it is called with
into the completion, making the session an adapter uses observable in its
reply. -/
def echoSessionInvoke : String → Json → Except String (List String) :=
  fun sid _ => .ok [sid]

/-- The same for the gateway, whose session argument is a value. -/
def echoSessionInvokeJ : Json → Json → Except String (List String) :=
  fun sid _ => .ok [pyStr sid]

/-! Claim theorems. -/

/-- C3: for every request body that parses as structured data (a dict) but
whose `query` field is absent (so `body.get("query")` yields `None`) or the
empty string, the gateway returns HTTP 400 with exactly the error message
"Missing 'query' in request body", whatever the alias configuration, the
generated uuid or the downstream invocation behave like. -/
theorem C3_gateway_missing_query (kvs : List (String × Json)) (genUuid aliasId : String)
    (invokeAgent : Json → Json → Except String (List String))
    (h : (lookupKey kvs "query").getD .null = .null ∨
         (lookupKey kvs "query").getD .null = .str "") :
    gatewayHandler (.ok (.obj kvs)) genUuid aliasId invokeAgent =
      ⟨400, .obj [("error", .str "Missing 'query' in request body")]⟩ := by
  unfold gatewayHandler gatewayPlan
  rcases h with h | h <;> simp [pyTruthy, h]

/-- Witness for C3 at a concrete body with no `query` key. -/
theorem C3_gateway_missing_query_witness :
    gatewayHandler (.ok (.obj [("session_id", .str "s")])) "g" "TSTALIASID"
        (fun _ _ => .ok ["x"]) =
      ⟨400, .obj [("error", .str "Missing 'query' in request body")]⟩ :=
  C3_gateway_missing_query [("session_id", .str "s")] "g" "TSTALIASID" _ (Or.inl rfl)

/-- C4: for every valid non-empty query string, with the alias identifier
configured (no placeholder) and the downstream invocation succeeding, the
gateway returns HTTP 200 whose body carries the reassembled completion and
a `session_id` equal to the caller-supplied one when one was supplied, and
otherwise the freshly generated identifier, which is non-empty (uuids are)
and differs between two calls whose generated uuids differ. -/
theorem C4_gateway_success (kvs : List (String × Json)) (genUuid aliasId q : String)
    (chunks : List String) (invokeAgent : Json → Json → Except String (List String))
    (hq : lookupKey kvs "query" = some (.str q)) (hqne : q ≠ "")
    (halias : containsPlaceholder aliasId = false)
    (hinv : invokeAgent ((lookupKey kvs "session_id").getD (.str genUuid)) (.str q) = .ok chunks)
    (hg : genUuid ≠ "") :
    (gatewayHandler (.ok (.obj kvs)) genUuid aliasId invokeAgent).statusCode = 200
    ∧ responseOf (gatewayHandler (.ok (.obj kvs)) genUuid aliasId invokeAgent) =
        .str (String.join chunks)
    ∧ (∀ v, lookupKey kvs "session_id" = some v →
        sessionIdOf (gatewayHandler (.ok (.obj kvs)) genUuid aliasId invokeAgent) = v)
    ∧ (lookupKey kvs "session_id" = none →
        sessionIdOf (gatewayHandler (.ok (.obj kvs)) genUuid aliasId invokeAgent) = .str genUuid
        ∧ sessionIdOf (gatewayHandler (.ok (.obj kvs)) genUuid aliasId invokeAgent) ≠ .str ""
        ∧ ∀ genUuid2 chunks2, genUuid2 ≠ genUuid →
            invokeAgent (.str genUuid2) (.str q) = .ok chunks2 →
            sessionIdOf (gatewayHandler (.ok (.obj kvs)) genUuid2 aliasId invokeAgent) ≠
              sessionIdOf (gatewayHandler (.ok (.obj kvs)) genUuid aliasId invokeAgent)) := by
  have hout : gatewayHandler (.ok (.obj kvs)) genUuid aliasId invokeAgent =
      ⟨200, .obj [("response", .str (String.join chunks)),
                  ("session_id", (lookupKey kvs "session_id").getD (.str genUuid))]⟩ := by
    unfold gatewayHandler gatewayPlan
    simp [hq, pyTruthy, hqne, halias, hinv]
  refine ⟨by rw [hout], by rw [hout]; simp [responseOf, objGetD, lookupKey], ?_, ?_⟩
  · intro v hv
    rw [hout]
    simp [sessionIdOf, objGetD, lookupKey, hv]
  · intro h0
    have hsid : (lookupKey kvs "session_id").getD (Json.str genUuid) = .str genUuid := by
      rw [h0]; rfl
    refine ⟨by rw [hout]; simp [sessionIdOf, objGetD, lookupKey, hsid], ?_, ?_⟩
    · rw [hout]
      simp [sessionIdOf, objGetD, lookupKey, hsid, hg]
    · intro genUuid2 chunks2 hne hinv2
      have hout2 : gatewayHandler (.ok (.obj kvs)) genUuid2 aliasId invokeAgent =
          ⟨200, .obj [("response", .str (String.join chunks2)),
                      ("session_id", .str genUuid2)]⟩ := by
        unfold gatewayHandler gatewayPlan
        simp [hq, pyTruthy, hqne, halias, h0, hinv2]
      rw [hout, hout2]
      simp [sessionIdOf, objGetD, lookupKey, hsid, hne]

/-- Witness for C4 at a concrete request with no supplied session id. -/
theorem C4_gateway_success_witness :
    (gatewayHandler (.ok (.obj [("query", .str "What is my balance?")])) "uuid-1" "TSTALIASID"
        echoSessionInvokeJ).statusCode = 200
    ∧ responseOf (gatewayHandler (.ok (.obj [("query", .str "What is my balance?")])) "uuid-1"
        "TSTALIASID" echoSessionInvokeJ) = .str (String.join ["uuid-1"])
    ∧ sessionIdOf (gatewayHandler (.ok (.obj [("query", .str "What is my balance?")])) "uuid-1"
        "TSTALIASID" echoSessionInvokeJ) = .str "uuid-1" := by
  have h := C4_gateway_success [("query", .str "What is my balance?")] "uuid-1" "TSTALIASID"
    "What is my balance?" ["uuid-1"] echoSessionInvokeJ rfl (by decide) (by decide) rfl
    (by decide)
  exact ⟨h.1, h.2.1, (h.2.2.2 rfl).1⟩

/-- C2 counterexample: the session id is not carried unchanged into nested
specialist invocations.  With an invocation stub that echoes the session it
is called with, the gateway (supplied session "s") invokes the orchestrator
at session "s", but the routing adapter, handling the nested function-call
event of the same request (which carries no session field at all), invokes
the specialist at its own freshly generated uuid "router-uuid" — a
different session id. -/
theorem C2_session_id_counterexample :
    sessionIdOf (gatewayHandler
        (.ok (.obj [("query", .str "What is my balance?"), ("session_id", .str "s")]))
        "gw-uuid" "TSTALIASID" echoSessionInvokeJ) = .str "s"
    ∧ responseOf (gatewayHandler
        (.ok (.obj [("query", .str "What is my balance?"), ("session_id", .str "s")]))
        "gw-uuid" "TSTALIASID" echoSessionInvokeJ) = .str "s"
    ∧ routerHandler
        (.obj [("function", .str "invoke_detailed_investment_agent"),
               ("actionGroup", .str "ag"),
               ("parameters", encodeParams [("query", .str "What is my balance?")])])
        "router-uuid" echoSessionInvoke
      = mkFnResult (.str "ag") (.str "invoke_detailed_investment_agent")
          (String.join ["router-uuid"])
    ∧ Json.str "router-uuid" ≠ Json.str "s" := by
  refine ⟨rfl, rfl, rfl, ?_⟩
  simp

/-- C2 amended: the gateway does pass the caller-supplied (or freshly
generated) session id unchanged into the orchestrator invocation, but the
routing layer substitutes a fresh uuid: every nested specialist invocation
the router makes uses exactly its own generated session id — the router's
observable behaviour depends on the injected invocation only through that
session (the gateway-level session id is never propagated to it). -/
theorem C2_session_id_amended :
    (∀ (kvs : List (String × Json)) (genUuid aliasId : String) (sid prompt : Json),
        gatewayPlan (.ok (.obj kvs)) genUuid aliasId = .invokeAgent sid prompt →
        sid = (lookupKey kvs "session_id").getD (.str genUuid))
    ∧ (∀ (event0 : Json) (genUuid : String)
        (inv1 inv2 : String → Json → Except String (List String)),
        (∀ q, inv1 genUuid q = inv2 genUuid q) →
        routerHandler event0 genUuid inv1 = routerHandler event0 genUuid inv2) := by
  constructor
  · intro kvs genUuid aliasId sid prompt h
    unfold gatewayPlan at h
    simp only at h
    split at h
    · exact absurd h (by simp)
    · split at h
      · exact absurd h (by simp)
      · cases h
        rfl
  · intro event0 genUuid inv1 inv2 h
    unfold routerHandler routerBody
    cases hp : routerPlan event0 with
    | error e => rfl
    | ok step =>
      cases step with
      | early r => rfl
      | callAgent ag q => simp only [h]

/-- Witness for C2 amended at concrete inputs: the gateway plan's session
for a supplied "s" is "s", and the router's reply is unchanged when the
injected invocation is replaced by one that agrees with it on the generated
session only. -/
theorem C2_session_id_amended_witness :
    Json.str "s" =
      (lookupKey [("query", .str "hi"), ("session_id", .str "s")] "session_id").getD
        (.str "gw-uuid")
    ∧ routerHandler
        (.obj [("function", .str "invoke_detailed_investment_agent"),
               ("parameters", encodeParams [("query", .str "hi")])])
        "g" echoSessionInvoke
      = routerHandler
          (.obj [("function", .str "invoke_detailed_investment_agent"),
                 ("parameters", encodeParams [("query", .str "hi")])])
          "g" (fun _ _ => .ok ["g"]) := by
  constructor
  · exact C2_session_id_amended.1 [("query", .str "hi"), ("session_id", .str "s")]
      "gw-uuid" "TSTALIASID" (.str "s") (.str "hi") rfl
  · exact C2_session_id_amended.2
      (.obj [("function", .str "invoke_detailed_investment_agent"),
             ("parameters", encodeParams [("query", .str "hi")])])
      "g" echoSessionInvoke (fun _ _ => .ok ["g"]) (fun _ => rfl)

/-- C9 counterexample: the fallback is not total.  For the portfolio data
`\x7b"portfolio": \x7b"totalValue": "abc"\x7d\x7d` the formatting stage
raises (a string cannot be formatted with `,.2f`), and the `except`
fallback re-formats the same `totalValue` and raises again, so
`generate_balance_response` raises instead of returning the one-line
summary. -/
theorem C9_fallback_counterexample :
    genBody (.obj [("portfolio", .obj [("totalValue", .str "abc")])]) =
      .error "Unknown format code 'f' for object of type 'str'"
    ∧ generateBalanceResponse (.obj [("portfolio", .obj [("totalValue", .str "abc")])]) =
      .error "Unknown format code 'f' for object of type 'str'" :=
  ⟨rfl, rfl⟩

/-- C9 amended: on every `portfolio_data` input on which the formatting
stage raises, `generate_balance_response` returns the minimal one-line
summary containing only the total portfolio value provided the fallback's
own re-read and `,.2f` formatting of `portfolio.totalValue` succeeds;
when the fallback formatting itself raises, the exception propagates out of
`generate_balance_response` (to be absorbed at the adapter boundary). -/
theorem C9_fallback_amended :
    (∀ (pd : Json) (e : String) (portfolio totalValue : Json) (fmt : String),
        genBody pd = .error e →
        pyDictGet pd "portfolio" (.obj []) = .ok portfolio →
        pyDictGet portfolio "totalValue" (.num 0) = .ok totalValue →
        pyFmtMoney totalValue = .ok fmt →
        generateBalanceResponse pd =
          .ok ("I was able to fetch your portfolio data, but encountered an issue formatting the response. Your total portfolio value is $"
            ++ fmt ++ "."))
    ∧ (∀ (pd : Json) (e e2 : String),
        genBody pd = .error e → balanceFallback pd = .error e2 →
        generateBalanceResponse pd = .error e2) := by
  constructor
  · intro pd e portfolio totalValue fmt hfail hp htv hfmt
    unfold generateBalanceResponse balanceFallback
    rw [hfail]
    simp [Bind.bind, Except.bind, Functor.map, Except.map, hp, htv, hfmt]
    rfl
  · intro pd e e2 hfail hfb
    unfold generateBalanceResponse
    rw [hfail, hfb]

/-- Witness for C9 amended: a portfolio whose `cashBalance` is a string
makes the formatting stage raise, while the fallback succeeds and emits the
one-liner with the total value only. -/
theorem C9_fallback_amended_witness :
    generateBalanceResponse
        (.obj [("portfolio", .obj [("totalValue", .num 105000), ("cashBalance", .str "x")])]) =
      .ok "I was able to fetch your portfolio data, but encountered an issue formatting the response. Your total portfolio value is $105,000.00." :=
  C9_fallback_amended.1
    (.obj [("portfolio", .obj [("totalValue", .num 105000), ("cashBalance", .str "x")])])
    "Unknown format code 'f' for object of type 'str'"
    (.obj [("totalValue", .num 105000), ("cashBalance", .str "x")])
    (.num 105000) "105,000.00" rfl rfl rfl rfl

/-- C5 counterexample: the claim fails when the parameter normalization
raises before the registry check.  For the event
`\x7b"function": "bogus", "parameters": [\x7b"name": [], "value": 1\x7d]\x7d`
the extracted function name "bogus" is unregistered, yet each adapter's
normalization loop raises `TypeError: unhashable type: 'list'` first, so
the reply body is the wrapped exception, not
"Error: Unknown function: bogus". -/
theorem C5_unknown_function_counterexample :
    routerExtractedFn (.obj [("function", .str "bogus"),
        ("parameters", .arr [.obj [("name", .arr []), ("value", .num 1)]])]) =
      .ok (.str "bogus")
    ∧ pyEq (.str "bogus") (.str "invoke_detailed_investment_agent") = false
    ∧ routerHandler (.obj [("function", .str "bogus"),
        ("parameters", .arr [.obj [("name", .arr []), ("value", .num 1)]])]) "g"
        (fun _ _ => .ok ["x"]) =
      mkFnResult (.str "") (.str "bogus")
        "Error invoking detailed investment agent: unhashable type: 'list'"
    ∧ routerHandler (.obj [("function", .str "bogus"),
        ("parameters", .arr [.obj [("name", .arr []), ("value", .num 1)]])]) "g"
        (fun _ _ => .ok ["x"]) ≠
      mkFnResult (.str "") (.str "bogus") "Error: Unknown function: bogus"
    ∧ subHandler (.obj [("function", .str "bogus"),
        ("parameters", .arr [.obj [("name", .arr []), ("value", .num 1)]])])
        (fun _ => .error (.otherError "no")) (fun _ _ => .error (.otherError "no")) =
      mkFnResult (.str "") (.str "bogus")
        "Error in subscription handler: unhashable type: 'list'"
    ∧ balHandler (.obj [("function", .str "bogus"),
        ("parameters", .arr [.obj [("name", .arr []), ("value", .num 1)]])])
        (.error (.otherError "no")) =
      mkFnResult (.str "") (.str "bogus")
        "Error fetching portfolio balance: unhashable type: 'list'" := by
  refine ⟨rfl, rfl, rfl, ?_, rfl, rfl⟩
  intro h
  rw [show routerHandler (.obj [("function", .str "bogus"),
      ("parameters", .arr [.obj [("name", .arr []), ("value", .num 1)]])]) "g"
      (fun _ _ => .ok ["x"]) =
    mkFnResult (.str "") (.str "bogus")
      "Error invoking detailed investment agent: unhashable type: 'list'" from rfl] at h
  simp [mkFnResult] at h

/-- C5 amended: for every function-call event whose parameter normalization
completes without raising (every name value hashable) and whose extracted
function name is not one the handler registers, each adapter returns
(totally — the handlers are plain functions, so no exception escapes) a
function-call result whose body is exactly "Error: Unknown function: <name>"
with `<name>` the extracted function name; when the normalization raises,
the adapter instead replies with its wrapped-exception body (claim C6).
For the router the extracted name is the one checked against its registry,
i.e. after its direct-invocation fallback. -/
theorem C5_unknown_function :
    (∀ (event0 : Json) (genUuid : String)
        (invokeAgent : String → Json → Except String (List String))
        (kvs : List (String × Json)) (fn : Json) (ps : List (Json × Json)),
        unwrapEvent event0 = .obj kvs →
        normalizeParamsListOnly ((lookupKey kvs "parameters").getD (.arr [])) = .ok ps →
        routerExtractedFn event0 = .ok fn →
        pyEq fn (.str "invoke_detailed_investment_agent") = false →
        routerHandler event0 genUuid invokeAgent =
          mkFnResult ((lookupKey kvs "actionGroup").getD (.str "")) fn
            ("Error: Unknown function: " ++ pyStr fn))
    ∧ (∀ (event0 : Json) (netGet : String → Except NetErr HttpResp)
        (netPost : String → Json → Except NetErr HttpResp)
        (kvs : List (String × Json)) (ps : List (Json × Json)),
        unwrapEvent event0 = .obj kvs →
        normalizeParamsSub ((lookupKey kvs "parameters").getD (.arr [])) = .ok ps →
        pyEq ((lookupKey kvs "function").getD (.str "")) (.str "check_subscription") = false →
        pyEq ((lookupKey kvs "function").getD (.str "")) (.str "subscribe_to_service") = false →
        subHandler event0 netGet netPost =
          mkFnResult ((lookupKey kvs "actionGroup").getD (.str ""))
            ((lookupKey kvs "function").getD (.str ""))
            ("Error: Unknown function: " ++ pyStr ((lookupKey kvs "function").getD (.str ""))))
    ∧ (∀ (event0 : Json) (net : Except NetErr HttpResp)
        (kvs : List (String × Json)) (ps : List (Json × Json)),
        unwrapEvent event0 = .obj kvs →
        normalizeParamsListOnly ((lookupKey kvs "parameters").getD (.arr [])) = .ok ps →
        pyEq ((lookupKey kvs "function").getD (.str "")) (.str "get_portfolio_balance") = false →
        balHandler event0 net =
          mkFnResult ((lookupKey kvs "actionGroup").getD (.str ""))
            ((lookupKey kvs "function").getD (.str ""))
            ("Error: Unknown function: " ++ pyStr ((lookupKey kvs "function").getD (.str "")))) := by
  refine ⟨?_, ?_, ?_⟩
  · intro event0 genUuid invokeAgent kvs fn ps he hnorm hfn hreg
    unfold routerExtractedFn at hfn
    rw [he] at hfn
    simp only at hfn
    unfold routerHandler routerBody routerPlan
    rw [he]
    dsimp only
    rw [hnorm]
    by_cases hc : (!pyTruthy ((lookupKey kvs "function").getD (.str ""))
        && (lookupKey kvs "inputText").isSome) = true
    · rw [if_pos hc] at hfn
      cases hfn
      simp [pyEq] at hreg
    · rw [if_neg hc] at hfn
      cases hfn
      simp only [hc, if_false, Bool.false_eq_true, ite_false, hreg, Bool.not_false,
        if_true]
  · intro event0 netGet netPost kvs ps he hnorm h1 h2
    unfold subHandler subBody
    rw [he]
    dsimp only
    rw [hnorm]
    simp only [h1, h2, Bool.false_eq_true, ite_false]
  · intro event0 net kvs ps he hnorm h1
    unfold balHandler balBody
    rw [he]
    dsimp only
    rw [hnorm]
    simp only [h1, Bool.not_false, if_true]

/-- Witness for C5 amended at a concrete unregistered function name (with
an empty, trivially normalizable parameter list) for each of the three
adapters. -/
theorem C5_unknown_function_witness :
    routerHandler (.obj [("function", .str "bogus")]) "g" (fun _ _ => .ok ["x"]) =
      mkFnResult (.str "") (.str "bogus") "Error: Unknown function: bogus"
    ∧ subHandler (.obj [("function", .str "bogus")]) (fun _ => .error (.otherError "no"))
        (fun _ _ => .error (.otherError "no")) =
      mkFnResult (.str "") (.str "bogus") "Error: Unknown function: bogus"
    ∧ balHandler (.obj [("function", .str "bogus")]) (.error (.otherError "no")) =
      mkFnResult (.str "") (.str "bogus") "Error: Unknown function: bogus" :=
  ⟨C5_unknown_function.1 (.obj [("function", .str "bogus")]) "g" (fun _ _ => .ok ["x"])
      [("function", .str "bogus")] (.str "bogus") [] rfl rfl rfl rfl,
   C5_unknown_function.2.1 (.obj [("function", .str "bogus")]) _ _
      [("function", .str "bogus")] [] rfl rfl rfl rfl,
   C5_unknown_function.2.2 (.obj [("function", .str "bogus")]) _
      [("function", .str "bogus")] [] rfl rfl rfl⟩

/-- Folding the shared parameter loop over the list-of-name/value encoding
of a flat mapping with distinct (hashable, string) keys raises nothing and
appends exactly that mapping. -/
theorem foldl_paramStep_encode (kvs : List (String × Json)) (acc : List (Json × Json))
    (hnd : (kvs.map Prod.fst).Nodup)
    (hdisj : ∀ kv ∈ kvs, ∀ p ∈ acc, pyEq p.1 (Json.str kv.1) = false) :
    List.foldlM paramStep acc
        (kvs.map (fun kv => Json.obj [("name", .str kv.1), ("value", kv.2)]))
      = .ok (acc ++ kvs.map (fun kv => (Json.str kv.1, kv.2))) := by
  induction kvs generalizing acc with
  | nil => simp [pure, Except.pure]
  | cons kv rest ih =>
    simp only [List.map_cons, List.foldlM_cons]
    have hstep : paramStep acc (Json.obj [("name", Json.str kv.1), ("value", kv.2)]) =
        .ok (acc ++ [(Json.str kv.1, kv.2)]) := by
      have hred : paramStep acc (Json.obj [("name", Json.str kv.1), ("value", kv.2)]) =
          .ok (pyDictInsert acc (Json.str kv.1) kv.2) := rfl
      rw [hred]
      unfold pyDictInsert
      have hany : (acc.any fun p => pyEq p.1 (Json.str kv.1)) = false := by
        rw [List.any_eq_false]
        intro p hp
        simp [hdisj kv (List.mem_cons_self _ _) p hp]
      simp [hany]
    rw [hstep]
    rw [List.map_cons] at hnd
    have hnd' : (rest.map Prod.fst).Nodup := hnd.of_cons
    have hhead : kv.1 ∉ rest.map Prod.fst := (List.nodup_cons.mp hnd).1
    have hdisj' : ∀ kv' ∈ rest, ∀ p ∈ acc ++ [(Json.str kv.1, kv.2)],
        pyEq p.1 (Json.str kv'.1) = false := by
      intro kv' hkv' p hp
      rcases List.mem_append.mp hp with hp | hp
      · exact hdisj kv' (List.mem_cons_of_mem _ hkv') p hp
      · have hpe : p = (Json.str kv.1, kv.2) := by simpa using hp
        subst hpe
        have hne : kv.1 ≠ kv'.1 := by
          intro hEq
          exact hhead (hEq ▸ List.mem_map_of_mem Prod.fst hkv')
        simp [pyEq, hne]
    simp only [Bind.bind, Except.bind]
    rw [ih (acc ++ [(Json.str kv.1, kv.2)]) hnd' hdisj']
    simp

/-- C1 counterexample: the claim fails for the router (and the balance
fetcher, which shares the same normalization): an already-flat mapping
yields the empty mapping, not the same mapping the equivalent
list-of-name/value shape yields. -/
theorem C1_params_counterexample :
    normalizeParamsListOnly (.obj [("query", .str "x")]) = .ok []
    ∧ normalizeParamsListOnly (encodeParams [("query", .str "x")]) =
        .ok [(Json.str "query", Json.str "x")]
    ∧ (Except.ok ([] : List (Json × Json)) : Except String (List (Json × Json))) ≠
        .ok [(Json.str "query", Json.str "x")] :=
  ⟨rfl, rfl, by simp⟩

/-- C1 amended: only the subscription handler's parameter normalization
treats the two shapes identically — the list-of-name/value encoding of a
flat mapping with distinct keys and the flat mapping itself normalize,
without raising, to the same mapping (and normalization of the flat shape
is idempotent in that sense).  The router and the balance fetcher coerce
only the list shape: every other shape — the flat mapping included — yields
an empty mapping rather than an exception, as does any non-list non-dict
shape for the subscription handler. -/
theorem C1_params_amended :
    (∀ (kvs : List (String × Json)), (kvs.map Prod.fst).Nodup →
        normalizeParamsSub (encodeParams kvs) =
          .ok (kvs.map (fun kv => (Json.str kv.1, kv.2)))
        ∧ normalizeParamsSub (.obj kvs) =
          .ok (kvs.map (fun kv => (Json.str kv.1, kv.2))))
    ∧ (∀ j, isListShape j = false → normalizeParamsListOnly j = .ok [])
    ∧ (∀ j, isListShape j = false → isDictShape j = false →
        normalizeParamsSub j = .ok []) := by
  refine ⟨?_, ?_, ?_⟩
  · intro kvs hnd
    constructor
    · show paramsFromPairList _ = _
      unfold paramsFromPairList
      simpa using foldl_paramStep_encode kvs [] hnd (by simp)
    · rfl
  · intro j h
    cases j <;> simp_all [normalizeParamsListOnly, isListShape]
  · intro j h1 h2
    cases j <;> simp_all [normalizeParamsSub, isListShape, isDictShape]

/-- Witness for C1 amended at the concrete one-entry mapping. -/
theorem C1_params_amended_witness :
    normalizeParamsSub (encodeParams [("query", Json.str "x")]) =
      .ok [(Json.str "query", Json.str "x")]
    ∧ normalizeParamsSub (.obj [("query", Json.str "x")]) =
      .ok [(Json.str "query", Json.str "x")] :=
  C1_params_amended.1 [("query", Json.str "x")] (by simp)

/-- Both branches of the subscription handler's result wrapping produce the
function-call reply shape. -/
theorem subWrapResult_shape (ag fn : Json) (r : SvcResult) (b : Bool) :
    IsFnCallResult (subWrapResult ag fn r b) := by
  unfold subWrapResult IsFnCallResult
  split_ifs <;> exact ⟨_, _, _, rfl⟩

/-- Every early reply of the router plan is of the function-call reply
shape. -/
theorem routerPlan_early_shape (e : Json) (r : Json)
    (hp : routerPlan e = .ok (.early r)) : IsFnCallResult r := by
  unfold routerPlan at hp
  cases he : unwrapEvent e with
  | obj kvs =>
    rw [he] at hp
    simp only at hp
    repeat' split at hp
    all_goals
      first
        | (simp only [Except.ok.injEq, RouterStep.early.injEq] at hp
           exact ⟨_, _, _, hp.symm⟩)
        | simp at hp
  | null => rw [he] at hp; simp at hp
  | bool b => rw [he] at hp; simp at hp
  | num n => rw [he] at hp; simp at hp
  | str s => rw [he] at hp; simp at hp
  | arr xs => rw [he] at hp; simp at hp

/-- Every non-exceptional router reply is of the function-call reply
shape. -/
theorem routerBody_ok_shape (e : Json) (g : String)
    (inv : String → Json → Except String (List String)) (r : Json)
    (hb : routerBody e g inv = .ok r) : IsFnCallResult r := by
  unfold routerBody at hb
  cases hp : routerPlan e with
  | error x => rw [hp] at hb; simp at hb
  | ok step =>
    rw [hp] at hb
    cases step with
    | early r2 =>
      dsimp only at hb
      simp only [Except.ok.injEq] at hb
      exact hb ▸ routerPlan_early_shape e r2 hp
    | callAgent ag q =>
      dsimp only at hb
      cases hi : inv g q with
      | ok chunks =>
        rw [hi] at hb
        simp only [Except.ok.injEq] at hb
        exact ⟨_, _, _, hb.symm⟩
      | error m => rw [hi] at hb; simp at hb

/-- Every non-exceptional subscription reply is of the function-call reply
shape. -/
theorem subBody_ok_shape (e : Json) (netGet : String → Except NetErr HttpResp)
    (netPost : String → Json → Except NetErr HttpResp) (r : Json)
    (hb : subBody e netGet netPost = .ok r) : IsFnCallResult r := by
  unfold subBody at hb
  cases he : unwrapEvent e with
  | obj kvs =>
    rw [he] at hb
    dsimp only at hb
    cases hn : normalizeParamsSub ((lookupKey kvs "parameters").getD (.arr [])) with
    | error m => rw [hn] at hb; simp at hb
    | ok params =>
      rw [hn] at hb
      dsimp only at hb
      split at hb
      · simp only [Except.ok.injEq] at hb
        exact hb ▸ subWrapResult_shape _ _ _ _
      · split at hb
        · simp only [Except.ok.injEq] at hb
          exact hb ▸ subWrapResult_shape _ _ _ _
        · simp only [Except.ok.injEq] at hb
          exact ⟨_, _, _, hb.symm⟩
  | null => rw [he] at hb; simp at hb
  | bool b => rw [he] at hb; simp at hb
  | num n => rw [he] at hb; simp at hb
  | str s => rw [he] at hb; simp at hb
  | arr xs => rw [he] at hb; simp at hb

/-- Every non-exceptional balance reply is of the function-call reply
shape. -/
theorem balBody_ok_shape (e : Json) (net : Except NetErr HttpResp) (r : Json)
    (hb : balBody e net = .ok r) : IsFnCallResult r := by
  unfold balBody at hb
  cases he : unwrapEvent e with
  | obj kvs =>
    rw [he] at hb
    dsimp only at hb
    cases hn : normalizeParamsListOnly ((lookupKey kvs "parameters").getD (.arr [])) with
    | error m => rw [hn] at hb; simp at hb
    | ok params =>
      rw [hn] at hb
      dsimp only at hb
      split at hb
      · simp only [Except.ok.injEq] at hb
        exact ⟨_, _, _, hb.symm⟩
      · cases hf : fetchPortfolioBalance net with
        | none =>
          rw [hf] at hb
          simp only [Except.ok.injEq] at hb
          exact ⟨_, _, _, hb.symm⟩
        | some pd =>
          rw [hf] at hb
          dsimp only at hb
          cases hg : generateBalanceResponse pd with
          | ok text =>
            rw [hg] at hb
            simp only [Except.ok.injEq] at hb
            exact ⟨_, _, _, hb.symm⟩
          | error m => rw [hg] at hb; simp at hb
  | null => rw [he] at hb; simp at hb
  | bool b => rw [he] at hb; simp at hb
  | num n => rw [he] at hb; simp at hb
  | str s => rw [he] at hb; simp at hb
  | arr xs => rw [he] at hb; simp at hb

/-- C6: each adapter is total and fault-absorbing — whatever the event and
the injected effects, the reply is a well-formed function-call result, and
when the `try` body raises, the reply's body is the handler's
"Error <doing X>: <message>" wrapping of the exception message; the
adapters, being total functions, never throw to their caller. -/
theorem C6_adapters_fault_absorbing :
    (∀ (event0 : Json) (genUuid : String)
        (invokeAgent : String → Json → Except String (List String)),
        IsFnCallResult (routerHandler event0 genUuid invokeAgent))
    ∧ (∀ (event0 : Json) (netGet : String → Except NetErr HttpResp)
        (netPost : String → Json → Except NetErr HttpResp),
        IsFnCallResult (subHandler event0 netGet netPost))
    ∧ (∀ (event0 : Json) (net : Except NetErr HttpResp),
        IsFnCallResult (balHandler event0 net))
    ∧ (∀ (event0 : Json) (genUuid : String)
        (invokeAgent : String → Json → Except String (List String)) (m : String) (fn : Json),
        routerBody event0 genUuid invokeAgent = .error (m, fn) →
        routerHandler event0 genUuid invokeAgent =
          mkFnResult (agAtFailure (unwrapEvent event0)) fn
            ("Error invoking detailed investment agent: " ++ m))
    ∧ (∀ (event0 : Json) (netGet : String → Except NetErr HttpResp)
        (netPost : String → Json → Except NetErr HttpResp) (m : String) (fn : Json),
        subBody event0 netGet netPost = .error (m, fn) →
        subHandler event0 netGet netPost =
          mkFnResult (agAtFailure (unwrapEvent event0)) fn
            ("Error in subscription handler: " ++ m))
    ∧ (∀ (event0 : Json) (net : Except NetErr HttpResp) (m : String) (fn : Json),
        balBody event0 net = .error (m, fn) →
        balHandler event0 net =
          mkFnResult (agAtFailure (unwrapEvent event0)) fn
            ("Error fetching portfolio balance: " ++ m)) := by
  refine ⟨?_, ?_, ?_, ?_, ?_, ?_⟩
  · intro e g inv
    unfold routerHandler
    cases hb : routerBody e g inv with
    | ok r => exact routerBody_ok_shape e g inv r hb
    | error p => obtain ⟨m, fn⟩ := p; exact ⟨_, _, _, rfl⟩
  · intro e ng np
    unfold subHandler
    cases hb : subBody e ng np with
    | ok r => exact subBody_ok_shape e ng np r hb
    | error p => obtain ⟨m, fn⟩ := p; exact ⟨_, _, _, rfl⟩
  · intro e net
    unfold balHandler
    cases hb : balBody e net with
    | ok r => exact balBody_ok_shape e net r hb
    | error p => obtain ⟨m, fn⟩ := p; exact ⟨_, _, _, rfl⟩
  · intro e g inv m fn hb
    unfold routerHandler
    rw [hb]
  · intro e ng np m fn hb
    unfold subHandler
    rw [hb]
  · intro e net m fn hb
    unfold balHandler
    rw [hb]

/-- Witness for C6: a non-dict event makes each `try` body raise an
`AttributeError`, and each adapter wraps it with its own prefix. -/
theorem C6_adapters_fault_absorbing_witness :
    routerHandler (.str "boom") "g" (fun _ _ => .ok ["x"]) =
      mkFnResult (.str "") (.str "")
        "Error invoking detailed investment agent: 'str' object has no attribute 'get'"
    ∧ subHandler (.str "boom") (fun _ => .error (.otherError "no"))
        (fun _ _ => .error (.otherError "no")) =
      mkFnResult (.str "") (.str "")
        "Error in subscription handler: 'str' object has no attribute 'get'"
    ∧ balHandler (.str "boom") (.error (.otherError "no")) =
      mkFnResult (.str "") (.str "")
        "Error fetching portfolio balance: 'str' object has no attribute 'get'" :=
  ⟨C6_adapters_fault_absorbing.2.2.2.1 (.str "boom") "g" (fun _ _ => .ok ["x"])
      "'str' object has no attribute 'get'" (.str "") rfl,
   C6_adapters_fault_absorbing.2.2.2.2.1 (.str "boom") (fun _ => .error (.otherError "no"))
      (fun _ _ => .error (.otherError "no")) "'str' object has no attribute 'get'" (.str "") rfl,
   C6_adapters_fault_absorbing.2.2.2.2.2 (.str "boom") (.error (.otherError "no"))
      "'str' object has no attribute 'get'" (.str "") rfl⟩

/-- Extraction of the permitted-agents collection under the two accepted
body shapes. -/
theorem extractPermitted_shapes (j : Json) (ps : List Json)
    (hshape : (∃ kvs dkvs, j = .obj kvs
                 ∧ (lookupKey kvs "data").getD (.obj []) = .obj dkvs
                 ∧ (lookupKey dkvs "permitted_agents").getD (.arr []) = .arr ps)
              ∨ j = .arr ps) :
    extractPermitted j = .ok (.arr ps, decide (0 < ps.length)) := by
  rcases hshape with ⟨kvs, dkvs, rfl, hd, hpa⟩ | rfl
  · unfold extractPermitted
    dsimp only
    rw [hd]
    simp [hpa, pyLen, Bind.bind, Except.bind, pure, Except.pure]
  · unfold extractPermitted
    simp [pyLen, Bind.bind, Except.bind, pure, Except.pure]

/-- C7: for every upstream permissions response that `check_subscription`
accepts (HTTP 200 with parseable JSON), the reported `has_subscription`
flag is true iff the extracted permitted-agents collection is non-empty,
the collection being `data.permitted_agents` (with empty defaults) when the
body is a dict and the body itself when it is a list. -/
theorem C7_check_subscription_iff (params : List (Json × Json))
    (netGet : String → Except NetErr HttpResp) (resp : HttpResp) (j : Json) (ps : List Json)
    (hnet : netGet (checkUrl (paramsGetD params "user_id" (.str "quang"))) = .ok resp)
    (hstatus : resp.status = 200) (hparsed : resp.parsed = .ok j)
    (hshape : (∃ kvs dkvs, j = .obj kvs
                 ∧ (lookupKey kvs "data").getD (.obj []) = .obj dkvs
                 ∧ (lookupKey dkvs "permitted_agents").getD (.arr []) = .arr ps)
              ∨ j = .arr ps) :
    (checkSubscription params netGet).statusCode = 200
    ∧ objGetD (checkSubscription params netGet).body "permitted_agents" .null = .arr ps
    ∧ (objGetD (checkSubscription params netGet).body "has_subscription" .null = .bool true
        ↔ ps ≠ []) := by
  have hex := extractPermitted_shapes j ps hshape
  have hres : checkSubscription params netGet =
      ⟨200, .obj [("has_subscription", .bool (decide (0 < ps.length))),
                  ("permitted_agents", .arr ps),
                  ("user_id", paramsGetD params "user_id" (.str "quang")),
                  ("raw_response", j)]⟩ := by
    unfold checkSubscription
    dsimp only
    rw [hnet]
    simp [hstatus, hparsed, hex]
  rw [hres]
  refine ⟨rfl, by simp [objGetD, lookupKey], ?_⟩
  simp only [objGetD, lookupKey]
  constructor
  · intro h
    simp only [show (("has_subscription" : String) = "has_subscription") = True by simp,
      if_true] at h
    have : decide (0 < ps.length) = true := by
      simpa [Option.getD] using congrArg (fun x => x) h
    simpa [List.length_pos] using of_decide_eq_true this
  · intro h
    have : 0 < ps.length := List.length_pos.mpr h
    simp [this]

/-- Witness for C7 at the spec's object-shaped example with one permitted
agent. -/
theorem C7_check_subscription_iff_witness :
    (checkSubscription []
        (fun _ => .ok ⟨200, .ok (.obj [("data", .obj [("permitted_agents",
          .arr [.str "x"])])]), "raw"⟩)).statusCode = 200
    ∧ objGetD (checkSubscription []
        (fun _ => .ok ⟨200, .ok (.obj [("data", .obj [("permitted_agents",
          .arr [.str "x"])])]), "raw"⟩)).body "permitted_agents" .null = .arr [.str "x"]
    ∧ (objGetD (checkSubscription []
        (fun _ => .ok ⟨200, .ok (.obj [("data", .obj [("permitted_agents",
          .arr [.str "x"])])]), "raw"⟩)).body "has_subscription" .null = .bool true
        ↔ ([Json.str "x"] : List Json) ≠ []) :=
  C7_check_subscription_iff []
    (fun _ => .ok ⟨200, .ok (.obj [("data", .obj [("permitted_agents",
      .arr [.str "x"])])]), "raw"⟩)
    ⟨200, .ok (.obj [("data", .obj [("permitted_agents", .arr [.str "x"])])]), "raw"⟩
    (.obj [("data", .obj [("permitted_agents", .arr [.str "x"])])])
    [.str "x"] rfl rfl rfl (Or.inl ⟨_, _, rfl, rfl, rfl⟩)

/-- Whenever `check_subscription` reports success, the `user_id` it reports
is the (possibly defaulted) parameter value. -/
theorem checkSubscription_userId_field (params : List (Json × Json))
    (netGet : String → Except NetErr HttpResp)
    (h : (checkSubscription params netGet).statusCode = 200) :
    objGetD (checkSubscription params netGet).body "user_id" .null =
      paramsGetD params "user_id" (.str "quang") := by
  unfold checkSubscription at h ⊢
  dsimp only at h ⊢
  cases hn : netGet (checkUrl (paramsGetD params "user_id" (.str "quang"))) with
  | error err =>
    rw [hn] at h
    cases err <;> simp at h
  | ok resp =>
    rw [hn] at h
    dsimp only at h ⊢
    by_cases hs : (resp.status != 200) = true
    · rw [if_pos hs] at h
      simp at h
    · rw [if_neg hs] at h ⊢
      cases hp : resp.parsed with
      | error m =>
        try rw [hp] at h
        simp at h
      | ok j =>
        try rw [hp] at h
        try rw [hp]
        dsimp only at h ⊢
        cases hx : extractPermitted j with
        | error m =>
          try rw [hx] at h
          simp at h
        | ok pr =>
          obtain ⟨perm, hs2⟩ := pr
          try rw [hx] at h
          try rw [hx]
          simp [objGetD, lookupKey]

/-- Whenever `subscribe_to_service` reports success, the message it reports
names the (possibly defaulted) user id and agent name. -/
theorem subscribeToService_message_field (params : List (Json × Json))
    (netPost : String → Json → Except NetErr HttpResp)
    (h : (subscribeToService params netPost).statusCode = 200) :
    objGetD (subscribeToService params netPost).body "message" .null =
      .str ("Successfully subscribed "
        ++ pyStr (paramsGetD params "user_id" (.str "quang")) ++ " to "
        ++ pyStr (paramsGetD params "agent_name" (.str "detailed-investment-agent"))) := by
  unfold subscribeToService at h ⊢
  dsimp only at h ⊢
  cases hn : netPost (subscribeUrl (paramsGetD params "user_id" (.str "quang")))
      (.obj [("agent_name", paramsGetD params "agent_name"
        (.str "detailed-investment-agent"))]) with
  | error err =>
    rw [hn] at h
    cases err <;> simp at h
  | ok resp =>
    rw [hn] at h
    dsimp only at h ⊢
    by_cases hs : (resp.status != 200) = true
    · rw [if_pos hs] at h
      simp at h
    · rw [if_neg hs] at h ⊢
      cases hp : resp.parsed with
      | error m =>
        try rw [hp] at h
        simp at h
      | ok j =>
        try rw [hp] at h
        try rw [hp]
        simp [objGetD, lookupKey]

/-- C10: when the parameter mapping carries no `user_id` entry, both
subscription operations default the user to the hardcoded account "quang"
(and `subscribe_to_service` defaults the agent to
"detailed-investment-agent") instead of failing closed: the defaulted
values are what the operations consult the network with (their behaviour
depends on the injected requests only at the quang URLs) and what a
successful result reports. -/
theorem C10_default_user_quang (params : List (Json × Json))
    (hu : ∀ kv ∈ params, pyEq kv.1 (.str "user_id") = false)
    (ha : ∀ kv ∈ params, pyEq kv.1 (.str "agent_name") = false) :
    paramsGetD params "user_id" (.str "quang") = .str "quang"
    ∧ paramsGetD params "agent_name" (.str "detailed-investment-agent") =
        .str "detailed-investment-agent"
    ∧ (∀ netGet, (checkSubscription params netGet).statusCode = 200 →
        objGetD (checkSubscription params netGet).body "user_id" .null = .str "quang")
    ∧ (∀ netGet1 netGet2 : String → Except NetErr HttpResp,
        netGet1 (checkUrl (.str "quang")) = netGet2 (checkUrl (.str "quang")) →
        checkSubscription params netGet1 = checkSubscription params netGet2)
    ∧ (∀ netPost, (subscribeToService params netPost).statusCode = 200 →
        objGetD (subscribeToService params netPost).body "message" .null =
          .str "Successfully subscribed quang to detailed-investment-agent")
    ∧ (∀ netPost1 netPost2 : String → Json → Except NetErr HttpResp,
        netPost1 (subscribeUrl (.str "quang"))
            (.obj [("agent_name", .str "detailed-investment-agent")]) =
          netPost2 (subscribeUrl (.str "quang"))
            (.obj [("agent_name", .str "detailed-investment-agent")]) →
        subscribeToService params netPost1 = subscribeToService params netPost2) := by
  have h1 : paramsGetD params "user_id" (.str "quang") = .str "quang" := by
    unfold paramsGetD
    rw [List.find?_eq_none.mpr (fun kv hkv => by simp [hu kv hkv])]
  have h2 : paramsGetD params "agent_name" (.str "detailed-investment-agent") =
      .str "detailed-investment-agent" := by
    unfold paramsGetD
    rw [List.find?_eq_none.mpr (fun kv hkv => by simp [ha kv hkv])]
  refine ⟨h1, h2, ?_, ?_, ?_, ?_⟩
  · intro netGet hsc
    rw [checkSubscription_userId_field params netGet hsc, h1]
  · intro netGet1 netGet2 hagree
    unfold checkSubscription
    dsimp only
    rw [h1, hagree]
  · intro netPost hsc
    rw [subscribeToService_message_field params netPost hsc, h1, h2]
    rfl
  · intro netPost1 netPost2 hagree
    unfold subscribeToService
    dsimp only
    rw [h1, h2, hagree]

/-- Witness for C10 at the empty parameter mapping. -/
theorem C10_default_user_quang_witness :
    paramsGetD [] "user_id" (.str "quang") = .str "quang"
    ∧ objGetD (checkSubscription []
        (fun _ => .ok ⟨200, .ok (.arr []), "raw"⟩)).body "user_id" .null = .str "quang"
    ∧ objGetD (subscribeToService []
        (fun _ _ => .ok ⟨200, .ok (.obj []), "raw"⟩)).body "message" .null =
      .str "Successfully subscribed quang to detailed-investment-agent" := by
  have h := C10_default_user_quang [] (by simp) (by simp)
  exact ⟨h.1, h.2.2.1 (fun _ => .ok ⟨200, .ok (.arr []), "raw"⟩) rfl,
    h.2.2.2.2.1 (fun _ _ => .ok ⟨200, .ok (.obj []), "raw"⟩) rfl⟩

/-- Membership in a stable descending insertion. -/
theorem mem_insDesc {le : α → α → Bool} {x a : α} {l : List α}
    (h : a ∈ insDesc le x l) : a = x ∨ a ∈ l := by
  induction l with
  | nil => simpa [insDesc] using h
  | cons y ys ih =>
    unfold insDesc at h
    by_cases hc : le y x = true
    · rw [if_pos hc] at h
      simpa using h
    · rw [if_neg hc] at h
      rcases List.mem_cons.mp h with rfl | h
      · simp
      · rcases ih h with rfl | h
        · simp
        · simp [h]

/-- Stable descending insertion permutes the pushed element onto the
list. -/
theorem insDesc_perm (le : α → α → Bool) (x : α) (l : List α) :
    List.Perm (insDesc le x l) (x :: l) := by
  induction l with
  | nil => rfl
  | cons y ys ih =>
    unfold insDesc
    by_cases hc : le y x = true
    · rw [if_pos hc]
    · rw [if_neg hc]
      exact (ih.cons y).trans (List.Perm.swap x y ys)

/-- The stable descending sort is a permutation. -/
theorem sortDesc_perm (le : α → α → Bool) (l : List α) :
    List.Perm (sortDesc le l) l := by
  induction l with
  | nil => rfl
  | cons x xs ih =>
    unfold sortDesc
    exact (insDesc_perm le x (sortDesc le xs)).trans (ih.cons x)

/-- Inserting into a descending list keeps it descending, for elements of a
set on which the order is total and transitive. -/
theorem pairwise_insDesc {le : α → α → Bool} (S : α → Prop)
    (htot : ∀ a b, S a → S b → le a b = true ∨ le b a = true)
    (htrans : ∀ a b c, S a → S b → S c → le a b = true → le b c = true → le a c = true)
    {x : α} (hx : S x) {l : List α} (hl : ∀ a ∈ l, S a)
    (hp : l.Pairwise (fun a b => le b a = true)) :
    (insDesc le x l).Pairwise (fun a b => le b a = true) := by
  induction l with
  | nil => simp [insDesc]
  | cons y ys ih =>
    rcases List.pairwise_cons.mp hp with ⟨hy, hys⟩
    unfold insDesc
    by_cases hc : le y x = true
    · rw [if_pos hc]
      refine List.Pairwise.cons ?_ hp
      intro z hz
      rcases List.mem_cons.mp hz with rfl | hz
      · exact hc
      · exact htrans z y x (hl z (List.mem_cons_of_mem _ hz))
          (hl y (List.mem_cons_self _ _)) hx (hy z hz) hc
    · rw [if_neg hc]
      refine List.Pairwise.cons ?_ (ih (fun a ha => hl a (List.mem_cons_of_mem _ ha)) hys)
      intro z hz
      rcases mem_insDesc hz with rfl | hz
      · rcases htot z y hx (hl y (List.mem_cons_self _ _)) with hxy | hyx
        · exact hxy
        · exact absurd hyx hc
      · exact hy z hz

/-- The stable descending sort is descending, for lists inside a set on
which the order is total and transitive. -/
theorem pairwise_sortDesc {le : α → α → Bool} (S : α → Prop)
    (htot : ∀ a b, S a → S b → le a b = true ∨ le b a = true)
    (htrans : ∀ a b c, S a → S b → S c → le a b = true → le b c = true → le a c = true)
    (l : List α) (hl : ∀ a ∈ l, S a) :
    (sortDesc le l).Pairwise (fun a b => le b a = true) := by
  induction l with
  | nil => simp [sortDesc]
  | cons x xs ih =>
    unfold sortDesc
    exact pairwise_insDesc S htot htrans (hl x (List.mem_cons_self _ _))
      (fun a ha => hl a (List.mem_cons_of_mem _ ((sortDesc_perm le xs).mem_iff.mp ha)))
      (ih (fun a ha => hl a (List.mem_cons_of_mem _ ha)))

/-- Stability at a matching element: inserting an element that satisfies the
filter places it right in front of the earlier matches that it cannot
precede. -/
theorem filter_insDesc_pos {p : α → Bool} {le : α → α → Bool} {x : α}
    (hx : p x = true) {l : List α}
    (hother : ∀ y ∈ l, le y x = false → p y = false) :
    (insDesc le x l).filter p = x :: l.filter p := by
  induction l with
  | nil => simp [insDesc, hx]
  | cons y ys ih =>
    unfold insDesc
    by_cases hc : le y x = true
    · rw [if_pos hc]
      simp [List.filter_cons, hx]
    · rw [if_neg hc]
      have hpy : p y = false := hother y (List.mem_cons_self _ _) (by simpa using hc)
      rw [List.filter_cons, List.filter_cons]
      simp only [hpy, Bool.false_eq_true, ite_false]
      exact ih (fun z hz h0 => hother z (List.mem_cons_of_mem _ hz) h0)

/-- A non-matching element is invisible to the filter wherever it is
inserted. -/
theorem filter_insDesc_neg {p : α → Bool} {le : α → α → Bool} {x : α}
    (hx : p x = false) (l : List α) :
    (insDesc le x l).filter p = l.filter p := by
  induction l with
  | nil => simp [insDesc, hx]
  | cons y ys ih =>
    unfold insDesc
    by_cases hc : le y x = true
    · rw [if_pos hc]
      simp [List.filter_cons, hx]
    · rw [if_neg hc]
      rw [List.filter_cons, List.filter_cons, ih]

/-- Stability of the descending sort: elements matching any filter that is
downward-closed under the order (equal keys in the application) keep their
original relative order. -/
theorem filter_sortDesc {p : α → Bool} {le : α → α → Bool} (S : α → Prop)
    (h : ∀ x y, S x → S y → p x = true → le y x = false → p y = false)
    (l : List α) (hl : ∀ a ∈ l, S a) :
    (sortDesc le l).filter p = l.filter p := by
  induction l with
  | nil => rfl
  | cons x xs ih =>
    unfold sortDesc
    by_cases hp : p x = true
    · rw [filter_insDesc_pos hp (fun y hy h0 => h x y (hl x (List.mem_cons_self _ _))
        (hl y (List.mem_cons_of_mem _ ((sortDesc_perm le xs).mem_iff.mp hy))) hp h0)]
      rw [ih (fun a ha => hl a (List.mem_cons_of_mem _ ha))]
      simp [List.filter_cons, hp]
    · have hp' : p x = false := by simpa using hp
      rw [filter_insDesc_neg hp']
      rw [ih (fun a ha => hl a (List.mem_cons_of_mem _ ha))]
      simp [List.filter_cons, hp']

/-- Under well-formed positions, the key extraction succeeds and pairs each
position with its `totalValue`. -/
theorem posKeyed_wf (xs : List Json) (hwf : ∀ x ∈ xs, WFPosition x) :
    posKeyed xs = .ok (xs.map (fun x => (posTotalValue x, x))) := by
  induction xs with
  | nil => rfl
  | cons x rest ih =>
    obtain ⟨⟨kvs, rfl⟩, _⟩ := hwf x (List.mem_cons_self _ _)
    have hrest := ih (fun a ha => hwf a (List.mem_cons_of_mem _ ha))
    unfold posKeyed at hrest ⊢
    rw [List.mapM_cons, hrest]
    rfl

/-- All-number key lists are pairwise comparable. -/
theorem pairsComparable_nums (ks : List Json) (h : ∀ k ∈ ks, ∃ n : Int, k = .num n) :
    pairsComparable ks = true := by
  unfold pairsComparable
  rw [List.all_eq_true]
  intro a ha
  rw [List.all_eq_true]
  intro b hb
  obtain ⟨m, rfl⟩ := h a ha
  obtain ⟨n, rfl⟩ := h b hb
  simp [pyKeyLe, keyNumVal]

/-- C8: for every snapshot with a (non-empty) well-formed positions
sequence, the Top Holdings section's source sort succeeds and lists at most
the top 3 positions by `totalValue` descending, ties keeping their original
relative order (the sort leaves the filter at every key value unchanged);
in particular for `totalValue`s `[300, 900, 100, 700]` the emitted ranked
values are exactly `[900, 700, 300]`. -/
theorem C8_top_holdings :
    (∀ (xs : List Json), (∀ x ∈ xs, WFPosition x) → xs ≠ [] →
      ∃ l, pySortedByTotalValueDesc (.arr xs) = .ok l
        ∧ l.length = xs.length
        ∧ (l.take 3).length ≤ 3
        ∧ (l.take 3).Pairwise (fun a b => ∀ m n : Int,
            posTotalValue a = .num m → posTotalValue b = .num n → n ≤ m)
        ∧ (∀ v : Int, l.filter (fun x => pyEq (posTotalValue x) (.num v)) =
            xs.filter (fun x => pyEq (posTotalValue x) (.num v))))
    ∧ pySortedByTotalValueDesc (.arr
        [.obj [("symbol", .str "A"), ("totalValue", .num 300)],
         .obj [("symbol", .str "B"), ("totalValue", .num 900)],
         .obj [("symbol", .str "C"), ("totalValue", .num 100)],
         .obj [("symbol", .str "D"), ("totalValue", .num 700)]]) =
      .ok [.obj [("symbol", .str "B"), ("totalValue", .num 900)],
           .obj [("symbol", .str "D"), ("totalValue", .num 700)],
           .obj [("symbol", .str "A"), ("totalValue", .num 300)],
           .obj [("symbol", .str "C"), ("totalValue", .num 100)]]
    ∧ topHoldingsLines (.arr
        [.obj [("symbol", .str "A"), ("totalValue", .num 300)],
         .obj [("symbol", .str "B"), ("totalValue", .num 900)],
         .obj [("symbol", .str "C"), ("totalValue", .num 100)],
         .obj [("symbol", .str "D"), ("totalValue", .num 700)]]) =
      .ok ["1. B - $900.00 (+0.00%)", "2. D - $700.00 (+0.00%)",
           "3. A - $300.00 (+0.00%)"] := by
  refine ⟨?_, rfl, rfl⟩
  intro xs hwf hne
  have hkeys : ∀ pr ∈ xs.map (fun x => (posTotalValue x, x)),
      (∃ n : Int, pr.1 = Json.num n) ∧ pr.1 = posTotalValue pr.2 := by
    intro pr hpr
    obtain ⟨x, hx, rfl⟩ := List.mem_map.mp hpr
    exact ⟨(hwf x hx).2, rfl⟩
  have htot : ∀ a b : Json × Json,
      ((∃ n : Int, a.1 = Json.num n) ∧ a.1 = posTotalValue a.2) →
      ((∃ n : Int, b.1 = Json.num n) ∧ b.1 = posTotalValue b.2) →
      keyedLe a b = true ∨ keyedLe b a = true := by
    intro a b ⟨⟨m, hm⟩, _⟩ ⟨⟨n, hn⟩, _⟩
    unfold keyedLe
    rw [hm, hn]
    simp [pyKeyLe, keyNumVal]
    omega
  have htrans : ∀ a b c : Json × Json,
      ((∃ n : Int, a.1 = Json.num n) ∧ a.1 = posTotalValue a.2) →
      ((∃ n : Int, b.1 = Json.num n) ∧ b.1 = posTotalValue b.2) →
      ((∃ n : Int, c.1 = Json.num n) ∧ c.1 = posTotalValue c.2) →
      keyedLe a b = true → keyedLe b c = true → keyedLe a c = true := by
    intro a b c ⟨⟨m, hm⟩, _⟩ ⟨⟨n, hn⟩, _⟩ ⟨⟨k, hk⟩, _⟩
    unfold keyedLe
    rw [hm, hn, hk]
    simp [pyKeyLe, keyNumVal]
    omega
  have hcomp : pairsComparable ((xs.map (fun x => (posTotalValue x, x))).map Prod.fst)
      = true := by
    apply pairsComparable_nums
    intro k hk
    obtain ⟨pr, hpr, rfl⟩ := List.mem_map.mp hk
    exact (hkeys pr hpr).1
  have hsorted : pySortedByTotalValueDesc (.arr xs) =
      .ok ((sortDesc keyedLe (xs.map (fun x => (posTotalValue x, x)))).map Prod.snd) := by
    unfold pySortedByTotalValueDesc
    dsimp only
    rw [posKeyed_wf xs hwf]
    rw [List.map_map] at hcomp
    simp [hcomp, Bind.bind, Except.bind]
  refine ⟨_, hsorted, ?_, ?_, ?_, ?_⟩
  · rw [List.length_map,
      (sortDesc_perm keyedLe (xs.map (fun x => (posTotalValue x, x)))).length_eq,
      List.length_map]
  · simp [List.length_take]
  · have hp1 := pairwise_sortDesc
      (fun pr : Json × Json => (∃ n : Int, pr.1 = Json.num n) ∧ pr.1 = posTotalValue pr.2)
      htot htrans (xs.map (fun x => (posTotalValue x, x))) hkeys
    have hmem : ∀ pr ∈ sortDesc keyedLe (xs.map (fun x => (posTotalValue x, x))),
        (∃ n : Int, pr.1 = Json.num n) ∧ pr.1 = posTotalValue pr.2 := by
      intro pr hpr
      exact hkeys pr ((sortDesc_perm keyedLe _).mem_iff.mp hpr)
    have hp2 : (sortDesc keyedLe (xs.map (fun x => (posTotalValue x, x)))).Pairwise
        (fun a b => ∀ m n : Int,
          posTotalValue a.2 = .num m → posTotalValue b.2 = .num n → n ≤ m) := by
      refine hp1.imp_of_mem ?_
      intro a b ha hb hr
      obtain ⟨⟨m0, hm0⟩, hae⟩ := hmem a ha
      obtain ⟨⟨n0, hn0⟩, hbe⟩ := hmem b hb
      intro m n hm hn
      rw [← hae, hm0] at hm
      rw [← hbe, hn0] at hn
      cases hm
      cases hn
      unfold keyedLe at hr
      rw [hm0, hn0] at hr
      simpa [pyKeyLe, keyNumVal] using hr
    have hp3 : ((sortDesc keyedLe (xs.map (fun x => (posTotalValue x, x)))).map
        Prod.snd).Pairwise (fun a b => ∀ m n : Int,
          posTotalValue a = .num m → posTotalValue b = .num n → n ≤ m) :=
      List.pairwise_map.mpr hp2
    exact hp3.sublist (List.take_sublist 3 _)
  · intro v
    have hside : ∀ a b : Json × Json,
        ((∃ n : Int, a.1 = Json.num n) ∧ a.1 = posTotalValue a.2) →
        ((∃ n : Int, b.1 = Json.num n) ∧ b.1 = posTotalValue b.2) →
        ((fun x => pyEq (posTotalValue x) (Json.num v)) ∘ Prod.snd) a = true →
        keyedLe b a = false →
        ((fun x => pyEq (posTotalValue x) (Json.num v)) ∘ Prod.snd) b = false := by
      intro a b hSa hSb hpa hle
      obtain ⟨⟨m, hm⟩, hae⟩ := hSa
      obtain ⟨⟨n, hn⟩, hbe⟩ := hSb
      simp only [Function.comp] at hpa ⊢
      rw [← hae, hm] at hpa
      rw [← hbe, hn]
      unfold keyedLe at hle
      rw [hm, hn] at hle
      simp only [pyKeyLe, keyNumVal, Option.getD_some] at hle
      simp only [pyEq, beq_iff_eq] at hpa
      simp only [pyEq, beq_eq_false_iff_ne, ne_eq]
      simp only [decide_eq_false_iff_not, not_le] at hle
      omega
    have hstab := @filter_sortDesc (Json × Json)
      ((fun x => pyEq (posTotalValue x) (Json.num v)) ∘ Prod.snd) keyedLe
      (fun pr : Json × Json => (∃ n : Int, pr.1 = Json.num n) ∧ pr.1 = posTotalValue pr.2)
      hside (xs.map (fun x => (posTotalValue x, x))) hkeys
    rw [List.filter_map Prod.snd, hstab, List.filter_map (fun x => (posTotalValue x, x))]
    rw [List.map_map]
    have h1 : (Prod.snd ∘ fun x : Json => (posTotalValue x, x)) = id := rfl
    have h2 : (((fun x => pyEq (posTotalValue x) (Json.num v)) ∘ Prod.snd)
        ∘ fun x : Json => (posTotalValue x, x))
        = fun x => pyEq (posTotalValue x) (Json.num v) := rfl
    rw [h1, h2, List.map_id]

/-- Witness for C8 at the concrete snapshot of the claim. -/
theorem C8_top_holdings_witness :
    ∃ l, pySortedByTotalValueDesc (.arr
        [.obj [("symbol", .str "A"), ("totalValue", .num 300)],
         .obj [("symbol", .str "B"), ("totalValue", .num 900)],
         .obj [("symbol", .str "C"), ("totalValue", .num 100)],
         .obj [("symbol", .str "D"), ("totalValue", .num 700)]]) = .ok l
      ∧ l.length = 4
      ∧ (l.take 3).length ≤ 3 := by
  obtain ⟨l, h1, h2, h3, _, _⟩ := C8_top_holdings.1
    [.obj [("symbol", .str "A"), ("totalValue", .num 300)],
     .obj [("symbol", .str "B"), ("totalValue", .num 900)],
     .obj [("symbol", .str "C"), ("totalValue", .num 100)],
     .obj [("symbol", .str "D"), ("totalValue", .num 700)]]
    (by
      intro x hx
      simp only [List.mem_cons, List.not_mem_nil, or_false] at hx
      rcases hx with rfl | rfl | rfl | rfl <;>
        exact ⟨⟨_, rfl⟩, ⟨_, rfl⟩⟩)
    (by simp)
  exact ⟨l, h1, h2, h3⟩
